import Mathlib

/-!
# sPHENIX analysis modules: HCalCalibTree and EMJetVal

A shallow embedding of the per-event logic of the two analysis modules

* `HCalCosmicCalib/src/HCalCalibTree.cc` (tower grid, neighbour cuts, spectra),
* `JS-Jet/JetValidation/src/EMJetVal.cc` (node lookup, jet loop, pT bands),

followed by theorems about the embedded code.

Conventions.  C `float`/`double` quantities are rationals (`ℚ`): comparisons are
the comparisons of an ordered field, so NaN and rounding are outside the model.
C `int` indices are `Int`.  A histogram is the list of the values handed to its
`Fill`, oldest first.  Framework objects looked up by name are `Option` values,
`none` being the null pointer.
-/

namespace HCalCalibTree

/-- Value of `Fun4AllReturnCodes::EVENT_OK`. -/
def EVENT_OK : Int := 0

/-- Modelled from the spec: the header `HCalCalibTree.h` is not part of the sources;
the number of eta bins is the spec's 24 (the loop bound `n_etabin`). -/
def n_etabin : Nat := 24

/-- Modelled from the spec: the header `HCalCalibTree.h` is not part of the sources;
the number of phi bins is the spec's 64 (the loop bound `n_phibin`). -/
def n_phibin : Nat := 64

/-- The three cut thresholds.  They are members declared in the missing header, so
they are parameters of the embedding. -/
structure Cuts where
  tower_threshold : ℚ
  vert_threshold : ℚ
  veto_threshold : ℚ

/-- One channel of the `TowerInfoContainer`: what `get_energy`, `get_chi2`,
`getTowerEtaBin` and `getTowerPhiBin` return for it. -/
structure TowerInfo where
  energy : ℚ
  chi2 : ℚ
  ieta : Int
  iphi : Int

/-- The members of `HCalCalibTree` the event processing reads or writes. -/
structure State where
  event : Int
  m_peak : Int → Int → ℚ
  m_chi2 : Int → Int → ℚ
  h_channel_hist : Int → Int → List ℚ
  h_waveformchi2 : List (ℚ × ℚ)

/-- Assignment `g[i][j] = v` on a two-dimensional array. -/
def setCell {α : Type} (g : Int → Int → α) (i j : Int) (v : α) (a b : Int) : α :=
  if a = i ∧ b = j then v else g a b

/-- Body of the channel loop, lines 74-83. -/
def channelStep (s : State) (t : TowerInfo) : State :=
  let peak1 := setCell s.m_peak t.ieta t.iphi t.energy
  let chi1 := setCell s.m_chi2 t.ieta t.iphi t.chi2
  let h := s.h_waveformchi2 ++ [(peak1 t.ieta t.iphi, chi1 t.ieta t.iphi)]
  let peak2 := if chi1 t.ieta t.iphi > 10000 then setCell peak1 t.ieta t.iphi 0 else peak1
  { s with m_peak := peak2, m_chi2 := chi1, h_waveformchi2 := h }

/-- The channel loop, lines 72-84: channels in container order. -/
def channelLoop (towers : List TowerInfo) (s : State) : State :=
  towers.foldl channelStep s

/-- Lines 90 and 92: `up = iphi + 1; if (up > 63) up -= 64`. -/
def up (iphi : Int) : Int :=
  if iphi + 1 > 63 then iphi + 1 - 64 else iphi + 1

/-- Lines 91 and 93: `down = iphi - 1; if (down < 0) down += 64`. -/
def down (iphi : Int) : Int :=
  if iphi - 1 < 0 then iphi - 1 + 64 else iphi - 1

/-- Lines 89-96: `true` when none of the four `continue` statements is taken. -/
def passesCuts (c : Cuts) (p : Int → Int → ℚ) (ieta iphi : Int) : Bool :=
  if p ieta iphi < c.tower_threshold then false
  else if p ieta (up iphi) < c.vert_threshold ∨ p ieta (down iphi) < c.vert_threshold then false
  else if ieta ≠ 0 ∧ (p (ieta - 1) (up iphi) > c.veto_threshold
      ∨ p (ieta - 1) iphi > c.veto_threshold
      ∨ p (ieta - 1) (down iphi) > c.veto_threshold) then false
  else if ieta ≠ 23 ∧ (p (ieta + 1) (up iphi) > c.veto_threshold
      ∨ p (ieta + 1) iphi > c.veto_threshold
      ∨ p (ieta + 1) (down iphi) > c.veto_threshold) then false
  else true

/-- Body of the inner cut loop, lines 89-98, for the loop counters `ieta` and `iphi`. -/
def cutCell (c : Cuts) (ieta : Nat) (s : State) (iphi : Nat) : State :=
  let i : Int := ieta
  let j : Int := iphi
  if passesCuts c s.m_peak i j then
    { s with h_channel_hist := setCell s.h_channel_hist i j (s.h_channel_hist i j ++ [s.m_peak i j]) }
  else s

/-- The inner loop over `iphi`, line 88. -/
def cutRow (c : Cuts) (s : State) (ieta : Nat) : State :=
  (List.range n_phibin).foldl (cutCell c ieta) s

/-- The cut stage, lines 87-100. -/
def cutLoop (c : Cuts) (s : State) : State :=
  (List.range n_etabin).foldl (cutRow c) s

/-- The function `HCalCalibTree::process_towers`; `towers = none` is the missing node. -/
def process_towers (c : Cuts) (towers : Option (List TowerInfo)) (s : State) : Int × State :=
  match towers with
  | none => (EVENT_OK, s)
  | some ts => (EVENT_OK, cutLoop c (channelLoop ts s))

/-- The function `HCalCalibTree::process_event`, lines 54-59. -/
def process_event (c : Cuts) (towers : Option (List TowerInfo)) (s : State) : Int × State :=
  let r := process_towers c towers s
  (EVENT_OK, { r.2 with event := r.2.event + 1 })

/-- The function `HCalCalibTree::ResetEvent`, lines 104-106: nothing is reset. -/
def ResetEvent (s : State) : Int × State := (EVENT_OK, s)

/-- The cut condition in the words of the specification, with modular neighbours. -/
def specAccept (c : Cuts) (p : Int → Int → ℚ) (ieta iphi : Int) : Prop :=
  p ieta iphi ≥ c.tower_threshold
  ∧ p ieta ((iphi + 1) % 64) ≥ c.vert_threshold
  ∧ p ieta ((iphi - 1) % 64) ≥ c.vert_threshold
  ∧ (ieta ≠ 0 → ¬ p (ieta - 1) ((iphi - 1) % 64) > c.veto_threshold
      ∧ ¬ p (ieta - 1) iphi > c.veto_threshold
      ∧ ¬ p (ieta - 1) ((iphi + 1) % 64) > c.veto_threshold)
  ∧ (ieta ≠ 23 → ¬ p (ieta + 1) ((iphi - 1) % 64) > c.veto_threshold
      ∧ ¬ p (ieta + 1) iphi > c.veto_threshold
      ∧ ¬ p (ieta + 1) ((iphi + 1) % 64) > c.veto_threshold)

instance (c : Cuts) (p : Int → Int → ℚ) (ieta iphi : Int) : Decidable (specAccept c p ieta iphi) := by
  unfold specAccept; infer_instance

/-- The entries a cell's spectrum received during an event: what was appended to it. -/
def eventFills (before after : State) (ieta iphi : Int) : List ℚ :=
  (after.h_channel_hist ieta iphi).drop (before.h_channel_hist ieta iphi).length

/-- What one cell of the cut loop appends to the spectrum of cell `(a, b)`. -/
def cellFill (c : Cuts) (ieta : Nat) (p : Int → Int → ℚ) (iphi : Nat) (a b : Int) : List ℚ :=
  if passesCuts c p (ieta : Int) (iphi : Int) = true ∧ a = (ieta : Int) ∧ b = (iphi : Int) then
    [p (ieta : Int) (iphi : Int)]
  else []

/-- What one row of the cut loop appends to the spectrum of cell `(a, b)`. -/
def rowFill (c : Cuts) (p : Int → Int → ℚ) (ieta : Nat) (a b : Int) : List ℚ :=
  (List.range n_phibin).flatMap (fun iphi => cellFill c ieta p iphi a b)

/-- Illustrative thresholds for the worked scenarios: 500 passes the tower cut, 400 the
vertical cut, and a neighbour at 0 stays under the veto. -/
def cuts0 : Cuts := { tower_threshold := 450, vert_threshold := 350, veto_threshold := 100 }

/-- A freshly constructed module: zeroed grid, empty histograms. -/
def emptyState : State :=
  { event := 0, m_peak := fun _ _ => 0, m_chi2 := fun _ _ => 0,
    h_channel_hist := fun _ _ => [], h_waveformchi2 := [] }

/-- Scenario 1 of the specification: cell (5,10) at 500, its azimuthal neighbours at 400. -/
def scenario1 : List TowerInfo :=
  [{ energy := 500, chi2 := 0, ieta := 5, iphi := 10 },
   { energy := 400, chi2 := 0, ieta := 5, iphi := 11 },
   { energy := 400, chi2 := 0, ieta := 5, iphi := 9 }]

/-- Scenario 2 of the specification: scenario 1 with cell (4,10) raised above the veto. -/
def scenario2 : List TowerInfo :=
  scenario1 ++ [{ energy := 200, chi2 := 0, ieta := 4, iphi := 10 }]

/-- A collection with the single channel (5,10). -/
def oneTower : List TowerInfo := [{ energy := 500, chi2 := 0, ieta := 5, iphi := 10 }]

/-- A collection with one channel per cell of the grid: 500 in cell (5,10), zero elsewhere. -/
def fullTowers : List TowerInfo :=
  (List.range n_etabin).flatMap (fun (i : Nat) => (List.range n_phibin).map (fun (j : Nat) =>
    { energy := if i = 5 ∧ j = 10 then 500 else 0, chi2 := 0, ieta := (i : Int), iphi := (j : Int) }))

/-- Two channels, the first with a failed waveform fit (chi2 above 10000) and a negative
energy. -/
def noisyTowers : List TowerInfo :=
  [{ energy := -700, chi2 := 20000, ieta := 3, iphi := 4 },
   { energy := 500, chi2 := 0, ieta := 5, iphi := 10 }]

/-- The module after an earlier event with the towers of scenario 1 and the `ResetEvent`
that follows it: cells (5,9) and (5,11) still hold 400. -/
def staleState : State :=
  (ResetEvent (process_event cuts0 (some scenario1) emptyState).2).2

end HCalCalibTree

namespace EMJetVal

/-- Value of `Fun4AllReturnCodes::EVENT_OK`. -/
def EVENT_OK : Int := 0

/-- A `fastjet::PseudoJet` built from four components, `PseudoJet(px, py, pz, E)`. -/
structure PseudoJet where
  px : ℚ
  py : ℚ
  pz : ℚ
  E : ℚ
  deriving DecidableEq

/-- A jet handed back by a `ClusterSequence`: what `pt()` (the same as `perp()`), `eta()`
and `constituents()` return for it. -/
structure ClusteredJet where
  pt : ℚ
  eta : ℚ
  constituents : List PseudoJet
  deriving DecidableEq

/-- What `structure_of<contrib::SoftDrop>()` returns for a groomed jet. -/
structure SoftDropStructure where
  delta_R : ℚ
  symmetry : ℚ

/-- The library code called by `process_event`: libm and FastJet.  `antikt_R04` and
`antikt_R01` are `sorted_by_pt(ClusterSequence(particles, jetDef).inclusive_jets())` for the
two anti-kT definitions; `softDrop` is `sd(jet)` with `none` for `sd_jet == 0`. -/
structure External where
  cos : ℚ → ℚ
  sin : ℚ → ℚ
  sinh : ℚ → ℚ
  cosh : ℚ → ℚ
  antikt_R04 : List PseudoJet → List ClusteredJet
  antikt_R01 : List PseudoJet → List ClusteredJet
  delta_R : ClusteredJet → ClusteredJet → ℚ
  softDrop : ClusteredJet → Option SoftDropStructure

/-- A reconstructed `Jet` of the `JetMap`; `comp` lists the (source tag, channel) pairs from
`begin_comp()` to `end_comp()`, so `size_comp()` is its length. -/
structure Jet where
  id : Nat
  pt : ℚ
  eta : ℚ
  phi : ℚ
  e : ℚ
  comp : List (Nat × Nat)

/-- A `TowerInfoContainer`: the energy of the tower at a channel (`none` for a null tower)
and the eta and phi bins decoded from the channel's key. -/
structure TowerInfoContainer where
  get_tower_at_channel : Nat → Option ℚ
  getTowerEtaBin : Nat → Nat
  getTowerPhiBin : Nat → Nat

/-- A `RawTowerGeomContainer`: phi and eta of the tower geometry at (ieta, iphi). -/
structure RawTowerGeomContainer where
  get_phi : Nat → Nat → ℚ
  get_eta : Nat → Nat → ℚ

/-- The `TowerBackground` node: `get_UE(layer).at(ieta)`, `get_v2()`, `get_Psi2()`. -/
structure TowerBackground where
  get_UE : Nat → Nat → ℚ
  get_v2 : ℚ
  get_Psi2 : ℚ

/-- The `CentralityInfo` node: `get_centile(bimp)` and `get_quantity(bimp)`. -/
structure CentralityInfo where
  get_centile : ℚ
  get_quantity : ℚ

/-- The nodes `process_event` looks up under `topNode`, named after the local pointers that
receive them; `none` is a node that is not found. -/
structure TopNode where
  jets : Option (List Jet)
  jetsMC : Option (List Jet)
  seedjetsraw : Option (List Jet)
  seedjetssub : Option (List Jet)
  cent_node : Option CentralityInfo
  towersEM3 : Option TowerInfoContainer
  towersIH3 : Option TowerInfoContainer
  towersOH3 : Option TowerInfoContainer
  tower_geom : Option RawTowerGeomContainer
  tower_geomOH : Option RawTowerGeomContainer
  background : Option TowerBackground

/-- The histograms filled by `process_event`. -/
inductive Hist where
  | _hjetpT_R04
  | _hjeteta_R04
  | _hmult_R04
  | _h_R04_z_sj_15_20
  | _h_R04_theta_sj_15_20
  | _hmult_R04_pT_15_20GeV
  | _h_R04_z_g_15_20
  | _h_R04_theta_g_15_20
  | correlation_theta_15_20
  | correlation_z_15_20
  | _h_R04_z_sj_20_25
  | _h_R04_theta_sj_20_25
  | _hmult_R04_pT_20_25GeV
  | _h_R04_z_g_20_25
  | _h_R04_theta_g_20_25
  | correlation_theta_20_25
  | correlation_z_20_25
  | _h_R04_z_sj_25_30
  | _h_R04_theta_sj_25_30
  | _hmult_R04_pT_25_30GeV
  | _h_R04_z_g_25_30
  | _h_R04_theta_g_25_30
  | correlation_theta_25_30
  | correlation_z_25_30
  | _h_R04_z_sj_30_40
  | _h_R04_theta_sj_30_40
  | _hmult_R04_pT_30_40GeV
  | _h_R04_z_g_30_40
  | _h_R04_theta_g_30_40
  | correlation_theta_30_40
  | correlation_z_30_40
  deriving DecidableEq

/-- One call `hist->Fill(x)` or `hist->Fill(x, y)`. -/
structure Fill where
  hist : Hist
  x : ℚ
  y : Option ℚ := none
  deriving DecidableEq

/-- One row of the tree `m_T`: the branch values at `m_T->Fill()`. -/
structure TreeRow where
  m_event : Int
  nJet : Int
  cent : ℚ
  b : ℚ
  id : List Nat
  nComponent : List Nat
  eta : List ℚ
  phi : List ℚ
  e : List ℚ
  pt : List ℚ

/-- The members of `EMJetVal` the event processing reads or writes.  `fills` is the log of
all histogram fills, `m_T` the rows of the tree, and `clustSeq_R04` the log of the particle
lists from which a radius-0.4 `ClusterSequence` was constructed. -/
structure State where
  m_doTruthJets : Bool
  m_doSeeds : Bool
  m_doUnsubJet : Bool
  m_event : Int
  m_nJet : Int
  m_centrality : ℚ
  m_impactparam : ℚ
  m_id : List Nat
  m_nComponent : List Nat
  m_eta : List ℚ
  m_phi : List ℚ
  m_e : List ℚ
  m_pt : List ℚ
  m_unsub_pt : List ℚ
  m_sub_et : List ℚ
  fills : List Fill
  m_T : List TreeRow
  clustSeq_R04 : List (List PseudoJet)

/-- How a call of `process_event` ends: `exit(code)` or `return code`. -/
inductive Outcome where
  | exited (code : Int) (s : State)
  | returned (code : Int) (s : State)

/-- Whether the call ended in `exit`. -/
def Outcome.isExit : Outcome → Bool
  | .exited _ _ => true
  | .returned _ _ => false

/-- The exit status or the return value. -/
def Outcome.code : Outcome → Int
  | .exited c _ => c
  | .returned c _ => c

/-- The members when the call ended. -/
def Outcome.state : Outcome → State
  | .exited _ s => s
  | .returned _ s => s

/-- Lines 464-486, and the same lines of the other three bands: `sd(jet)`, then `continue`
(`true` in the second component) when it failed, else the four groomed fills. -/
def softDropFills (env : External) (jet : ClusteredJet) (theta_sj z_sj : ℚ)
    (z_g theta_g corr_theta corr_z : Hist) : List Fill × Bool :=
  match env.softDrop jet with
  | none => ([], true)
  | some sd =>
    ([{ hist := z_g, x := sd.symmetry }, { hist := theta_g, x := sd.delta_R },
      { hist := corr_theta, x := sd.delta_R, y := some theta_sj },
      { hist := corr_z, x := sd.symmetry, y := some z_sj }], false)

/-- The three overall fills at the head of every band block. -/
def overallFills (jet : ClusteredJet) : List Fill :=
  [{ hist := ._hjetpT_R04, x := jet.pt }, { hist := ._hjeteta_R04, x := jet.eta },
   { hist := ._hmult_R04, x := (jet.constituents.length : ℚ) }]

/-- Lines 443-536: the `if` / `else if` / `else` over the 15-20 and 20-25 bands.  The second
component is `true` when a `continue` was executed. -/
def block_15_25 (env : External) (jet : ClusteredJet) (theta_sj z_sj : ℚ) : List Fill × Bool :=
  if jet.pt > 15 ∧ jet.pt < 20 then
    let sd := softDropFills env jet theta_sj z_sj ._h_R04_z_g_15_20 ._h_R04_theta_g_15_20
      .correlation_theta_15_20 .correlation_z_15_20
    (overallFills jet
      ++ [{ hist := ._h_R04_z_sj_15_20, x := z_sj }, { hist := ._h_R04_theta_sj_15_20, x := theta_sj },
          { hist := ._hmult_R04_pT_15_20GeV, x := (jet.constituents.length : ℚ) }]
      ++ sd.1, sd.2)
  else if jet.pt > 20 ∧ jet.pt < 25 then
    let sd := softDropFills env jet theta_sj z_sj ._h_R04_z_g_20_25 ._h_R04_theta_g_20_25
      .correlation_theta_20_25 .correlation_z_20_25
    (overallFills jet
      ++ [{ hist := ._h_R04_z_sj_20_25, x := z_sj }, { hist := ._h_R04_theta_sj_20_25, x := theta_sj }]
      ++ sd.1, sd.2)
  else
    ([{ hist := ._hmult_R04_pT_20_25GeV, x := (jet.constituents.length : ℚ) }], false)

/-- Lines 540-584: the `if` / `else` over the 25-30 band. -/
def block_25_30 (env : External) (jet : ClusteredJet) (theta_sj z_sj : ℚ) : List Fill × Bool :=
  if jet.pt > 25 ∧ jet.pt < 30 then
    let sd := softDropFills env jet theta_sj z_sj ._h_R04_z_g_25_30 ._h_R04_theta_g_25_30
      .correlation_theta_25_30 .correlation_z_25_30
    (overallFills jet
      ++ [{ hist := ._h_R04_z_sj_25_30, x := z_sj }, { hist := ._h_R04_theta_sj_25_30, x := theta_sj }]
      ++ sd.1, sd.2)
  else
    ([{ hist := ._hmult_R04_pT_25_30GeV, x := (jet.constituents.length : ℚ) }], false)

/-- Lines 588-628: the `if` / `else` over the 30-40 band. -/
def block_30_40 (env : External) (jet : ClusteredJet) (theta_sj z_sj : ℚ) : List Fill × Bool :=
  if jet.pt > 30 ∧ jet.pt < 40 then
    let sd := softDropFills env jet theta_sj z_sj ._h_R04_z_g_30_40 ._h_R04_theta_g_30_40
      .correlation_theta_30_40 .correlation_z_30_40
    (overallFills jet
      ++ [{ hist := ._h_R04_z_sj_30_40, x := z_sj }, { hist := ._h_R04_theta_sj_30_40, x := theta_sj }]
      ++ sd.1, sd.2)
  else
    ([{ hist := ._hmult_R04_pT_30_40GeV, x := (jet.constituents.length : ℚ) }], false)

/-- Lines 442-634, the band classification of one radius-0.4 jet: the three blocks in
sequence, a `continue` ending the iteration, and at the end `_hmult_R04->Fill(m_nJet)`. -/
def bandFills (env : External) (m_nJet : Int) (jet : ClusteredJet) (theta_sj z_sj : ℚ) : List Fill :=
  let b1 := block_15_25 env jet theta_sj z_sj
  if b1.2 then b1.1
  else
    let b2 := block_25_30 env jet theta_sj z_sj
    if b2.2 then b1.1 ++ b2.1
    else
      let b3 := block_30_40 env jet theta_sj z_sj
      if b3.2 then b1.1 ++ b2.1 ++ b3.1
      else b1.1 ++ b2.1 ++ b3.1 ++ [{ hist := ._hmult_R04, x := (m_nJet : ℚ) }]

/-- Line 440: `z_sj = sj2.pt() / (sj2.pt() + sj1.pt())`. -/
def z_sj (sj1 sj2 : ClusteredJet) : ℚ := sj2.pt / (sj2.pt + sj1.pt)

/-- Lines 427-634, the body of the loop over `sortedJets_R04`: the eta cut, the radius-0.1
re-clustering, the two-sub-jet requirement, then the band classification. -/
def r04JetFills (env : External) (m_nJet : Int) (jet : ClusteredJet) : List Fill :=
  if |jet.eta| > 0.6 then []
  else
    match env.antikt_R01 jet.constituents with
    | sj1 :: sj2 :: _ => bandFills env m_nJet jet (env.delta_R sj1 sj2) (z_sj sj1 sj2)
    | _ => []

/-- The locals of the constituent loop together with what the loop adds to the logs. -/
structure Locals where
  particles : List PseudoJet
  totalPx : ℚ
  totalPy : ℚ
  totalPz : ℚ
  totalE : ℚ
  nconst : Nat
  fills : List Fill
  clustSeq_R04 : List (List PseudoJet)

/-- Lines 307-316: the locals before the constituent loop. -/
def Locals.init : Locals :=
  { particles := [], totalPx := 0, totalPy := 0, totalPz := 0, totalE := 0, nconst := 0,
    fills := [], clustSeq_R04 := [] }

/-- The nodes and event-level values the constituent loop reads. -/
structure EventInputs where
  towersEM3 : TowerInfoContainer
  towersIH3 : TowerInfoContainer
  towersOH3 : TowerInfoContainer
  tower_geom : RawTowerGeomContainer
  tower_geomOH : RawTowerGeomContainer
  background : TowerBackground
  background_v2 : ℚ
  background_Psi2 : ℚ
  m_nJet : Int

/-- Lines 339 / 362 / 386: the flow-modulated underlying-event energy. -/
def modulatedUE (env : External) (ev : EventInputs) (UE tower_phi : ℚ) : ℚ :=
  UE * (1 + 2 * ev.background_v2 * env.cos (2 * (tower_phi - ev.background_Psi2)))

/-- Lines 325-345 and 346-368: a constituent of the inner (layer 1) or outer (layer 2)
hadronic calorimeter, added to the totals. -/
def hadronicStep (env : External) (ev : EventInputs) (towers : TowerInfoContainer)
    (geom : RawTowerGeomContainer) (layer : Nat) (l : Locals) (channel : Nat) : Locals :=
  match towers.get_tower_at_channel channel with
  | none => l
  | some energy =>
    let ieta := towers.getTowerEtaBin channel
    let iphi := towers.getTowerPhiBin channel
    let tower_phi := geom.get_phi ieta iphi
    let tower_eta := geom.get_eta ieta iphi
    let UE := modulatedUE env ev (ev.background.get_UE layer ieta) tower_phi
    let pt := energy / env.cosh tower_eta
    { l with totalE := l.totalE + (energy + UE),
             totalPx := l.totalPx + pt * env.cos tower_phi,
             totalPy := l.totalPy + pt * env.sin tower_phi,
             totalPz := l.totalPz + pt * env.sinh tower_eta }

/-- Lines 387-397: the four-momentum pushed to `particles` for an EM constituent. -/
def emParticle (env : External) (ev : EventInputs) (energy : ℚ) (channel : Nat) : PseudoJet :=
  let ieta := ev.towersEM3.getTowerEtaBin channel
  let iphi := ev.towersEM3.getTowerPhiBin channel
  let tower_phi := ev.tower_geom.get_phi ieta iphi
  let tower_eta := ev.tower_geom.get_eta ieta iphi
  let UE := modulatedUE env ev (ev.background.get_UE 0 ieta) tower_phi
  let pt := energy / env.cosh tower_eta
  { px := pt * env.cos tower_phi, py := pt * env.sin tower_phi, pz := env.sinh tower_eta,
    E := energy + UE }

/-- Lines 369-642: an EM constituent.  Its four-momentum is added to the totals and pushed
to `particles`; the list is clustered at radius 0.4 and every resulting jet goes through
the loop body `r04JetFills`. -/
def emStep (env : External) (ev : EventInputs) (l : Locals) (channel : Nat) : Locals :=
  match ev.towersEM3.get_tower_at_channel channel with
  | none => l
  | some energy =>
    let p := emParticle env ev energy channel
    let particles := l.particles ++ [p]
    let sortedJets_R04 := env.antikt_R04 particles
    { l with totalE := l.totalE + p.E,
             totalPx := l.totalPx + p.px,
             totalPy := l.totalPy + p.py,
             totalPz := l.totalPz + p.pz,
             particles := particles,
             clustSeq_R04 := l.clustSeq_R04 ++ [particles],
             fills := l.fills ++ sortedJets_R04.flatMap (r04JetFills env ev.m_nJet) }

/-- Lines 320-644, the body of the constituent loop: `particles.clear()`, `nconst++`, then
the branch selected by the constituent's source tag. -/
def compStep (env : External) (ev : EventInputs) (l : Locals) (comp : Nat × Nat) : Locals :=
  let l1 := { l with particles := [], nconst := l.nconst + 1 }
  let channel := comp.2
  if comp.1 = 15 ∨ comp.1 = 30 then hadronicStep env ev ev.towersIH3 ev.tower_geom 1 l1 channel
  else if comp.1 = 16 ∨ comp.1 = 31 then hadronicStep env ev ev.towersOH3 ev.tower_geomOH 2 l1 channel
  else if comp.1 = 14 ∨ comp.1 = 29 then emStep env ev l1 channel
  else l1

/-- Lines 318-644: the constituent loop of one jet, from fresh locals. -/
def compLoop (env : External) (ev : EventInputs) (jet : Jet) : Locals :=
  jet.comp.foldl (compStep env ev) Locals.init

/-- Lines 269-645, the body of the jet loop.  The loop of lines 292-303 only builds a local
`PseudoJet` that is dropped at once, so it contributes nothing. -/
def jetStep (env : External) (ev : EventInputs) (s : State) (jet : Jet) : State :=
  if jet.pt < 1 then s
  else
    let s1 := { s with m_id := s.m_id ++ [jet.id],
                       m_nComponent := s.m_nComponent ++ [jet.comp.length],
                       m_eta := s.m_eta ++ [jet.eta],
                       m_phi := s.m_phi ++ [jet.phi],
                       m_e := s.m_e ++ [jet.e],
                       m_pt := s.m_pt ++ [jet.pt] }
    if s1.m_doUnsubJet then
      let l := compLoop env ev jet
      { s1 with fills := s1.fills ++ l.fills, clustSeq_R04 := s1.clustSeq_R04 ++ l.clustSeq_R04 }
    else s1

/-- The row written by `m_T->Fill()` from the current members. -/
def treeRow (s : State) : TreeRow :=
  { m_event := s.m_event, nJet := s.m_nJet, cent := s.m_centrality, b := s.m_impactparam,
    id := s.m_id, nComponent := s.m_nComponent, eta := s.m_eta, phi := s.m_phi, e := s.m_e,
    pt := s.m_pt }

/-- Lines 253-650: what `process_event` does once every node has been found. -/
def eventBody (env : External) (jets : List Jet) (cent_node : CentralityInfo)
    (towersEM3 towersIH3 towersOH3 : TowerInfoContainer)
    (tower_geom tower_geomOH : RawTowerGeomContainer) (background : TowerBackground)
    (s : State) : State :=
  let s1 := { s with m_centrality := cent_node.get_centile,
                     m_impactparam := cent_node.get_quantity,
                     m_nJet := 0 }
  let ev : EventInputs :=
    { towersEM3 := towersEM3, towersIH3 := towersIH3, towersOH3 := towersOH3,
      tower_geom := tower_geom, tower_geomOH := tower_geomOH, background := background,
      background_v2 := if s1.m_doUnsubJet then background.get_v2 else 0,
      background_Psi2 := if s1.m_doUnsubJet then background.get_Psi2 else 0,
      m_nJet := s1.m_nJet }
  let s2 := jets.foldl (jetStep env ev) s1
  { s2 with m_T := s2.m_T ++ [treeRow s2] }

/-- The function `EMJetVal::process_event`, lines 172-651. -/
def process_event (env : External) (top : TopNode) (s : State) : Outcome :=
  let s0 := { s with m_event := s.m_event + 1 }
  match top.jets with
  | none => .exited (-1) s0
  | some jets =>
    if top.jetsMC.isNone ∧ s0.m_doTruthJets = true then .exited (-1) s0
    else if top.seedjetsraw.isNone ∧ s0.m_doSeeds = true then .exited (-1) s0
    else if top.seedjetssub.isNone ∧ s0.m_doSeeds = true then .exited (-1) s0
    else
      match top.cent_node with
      | none => .exited (-1) s0
      | some cent_node =>
        match top.towersEM3, top.towersIH3, top.towersOH3 with
        | some towersEM3, some towersIH3, some towersOH3 =>
          match top.tower_geom, top.tower_geomOH with
          | some tower_geom, some tower_geomOH =>
            match top.background with
            | none => .returned EVENT_OK s0
            | some background =>
              .returned EVENT_OK
                (eventBody env jets cent_node towersEM3 towersIH3 towersOH3
                  tower_geom tower_geomOH background s0)
          | _, _ => .exited (-1) s0
        | _, _, _ => .exited (-1) s0

/-- The function `EMJetVal::ResetEvent`, lines 688-703. -/
def ResetEvent (s : State) : Int × State :=
  (EVENT_OK, { s with m_id := [], m_nComponent := [], m_eta := [], m_phi := [], m_e := [],
                      m_pt := [], m_unsub_pt := [], m_sub_et := [] })

/-- The members after the constructor, lines 55-94, with the three feature flags as set
afterwards through the setters of the header. -/
def constructed (doTruthJets doSeeds doUnsubJet : Bool) : State :=
  { m_doTruthJets := doTruthJets, m_doSeeds := doSeeds, m_doUnsubJet := doUnsubJet,
    m_event := -1, m_nJet := -1, m_centrality := 0, m_impactparam := 0,
    m_id := [], m_nComponent := [], m_eta := [], m_phi := [], m_e := [], m_pt := [],
    m_unsub_pt := [], m_sub_et := [], fills := [], m_T := [], clustSeq_R04 := [] }

/-- The four pT bands of the specification. -/
inductive Band where
  | pT_15_20
  | pT_20_25
  | pT_25_30
  | pT_30_40
  deriving DecidableEq

/-- Lower edge of a band. -/
def Band.lo : Band → ℚ
  | .pT_15_20 => 15
  | .pT_20_25 => 20
  | .pT_25_30 => 25
  | .pT_30_40 => 30

/-- Upper edge of a band. -/
def Band.hi : Band → ℚ
  | .pT_15_20 => 20
  | .pT_20_25 => 25
  | .pT_25_30 => 30
  | .pT_30_40 => 40

/-- The z_sj histogram of a band. -/
def Band.z_sj_hist : Band → Hist
  | .pT_15_20 => ._h_R04_z_sj_15_20
  | .pT_20_25 => ._h_R04_z_sj_20_25
  | .pT_25_30 => ._h_R04_z_sj_25_30
  | .pT_30_40 => ._h_R04_z_sj_30_40

/-- The theta_sj histogram of a band. -/
def Band.theta_sj_hist : Band → Hist
  | .pT_15_20 => ._h_R04_theta_sj_15_20
  | .pT_20_25 => ._h_R04_theta_sj_20_25
  | .pT_25_30 => ._h_R04_theta_sj_25_30
  | .pT_30_40 => ._h_R04_theta_sj_30_40

/-- The band of a substructure histogram (z_sj, theta_sj, z_g, theta_g and the two
correlations); `none` for the overall and the multiplicity histograms. -/
def Hist.substructureBand : Hist → Option Band
  | ._h_R04_z_sj_15_20 | ._h_R04_theta_sj_15_20 | ._h_R04_z_g_15_20 | ._h_R04_theta_g_15_20
  | .correlation_theta_15_20 | .correlation_z_15_20 => some .pT_15_20
  | ._h_R04_z_sj_20_25 | ._h_R04_theta_sj_20_25 | ._h_R04_z_g_20_25 | ._h_R04_theta_g_20_25
  | .correlation_theta_20_25 | .correlation_z_20_25 => some .pT_20_25
  | ._h_R04_z_sj_25_30 | ._h_R04_theta_sj_25_30 | ._h_R04_z_g_25_30 | ._h_R04_theta_g_25_30
  | .correlation_theta_25_30 | .correlation_z_25_30 => some .pT_25_30
  | ._h_R04_z_sj_30_40 | ._h_R04_theta_sj_30_40 | ._h_R04_z_g_30_40 | ._h_R04_theta_g_30_40
  | .correlation_theta_30_40 | .correlation_z_30_40 => some .pT_30_40
  | _ => none

/-- The fatal condition in the words of the specification: a mandatory input is missing
(reco jets; truth jets with the truth flag on; a seed collection with the seed flag on;
centrality; one of the three tower collections; one of the two geometry tables). -/
def mandatoryMissing (s : State) (top : TopNode) : Prop :=
  top.jets = none
  ∨ (s.m_doTruthJets = true ∧ top.jetsMC = none)
  ∨ (s.m_doSeeds = true ∧ (top.seedjetsraw = none ∨ top.seedjetssub = none))
  ∨ top.cent_node = none
  ∨ top.towersEM3 = none ∨ top.towersIH3 = none ∨ top.towersOH3 = none
  ∨ top.tower_geom = none ∨ top.tower_geomOH = none

instance (s : State) (top : TopNode) : Decidable (mandatoryMissing s top) := by
  unfold mandatoryMissing
  have d : ∀ {α : Type} (o : Option α), Decidable (o = none) := fun _ => Option.decidable_eq_none
  infer_instance

/-- The event inputs with the EM tower collection replaced by one that has a tower of
energy `energy channel` at every channel. -/
def withEMTowers (ev : EventInputs) (energy : Nat → ℚ) : EventInputs :=
  { ev with towersEM3 := { ev.towersEM3 with get_tower_at_channel := fun ch => some (energy ch) } }

/-- A jet with the given (source tag, channel) constituents. -/
def jetOfComp (comp : List (Nat × Nat)) : Jet :=
  { id := 0, pt := 30, eta := 0, phi := 0, e := 30, comp := comp }

/-- A stand-in for the library: libm at angle and rapidity zero, a clustering that returns
one jet of pT 22 at radius 0.4 and two sub-jets of pT 12 and 8 at radius 0.1, and a soft
drop that succeeds. -/
def env0 : External :=
  { cos := fun _ => 1, sin := fun _ => 0, sinh := fun _ => 0, cosh := fun _ => 1,
    antikt_R04 := fun ps => [{ pt := 22, eta := 0, constituents := ps }],
    antikt_R01 := fun ps => [{ pt := 12, eta := 0, constituents := ps },
                             { pt := 8, eta := 0, constituents := [] }],
    delta_R := fun _ _ => 1 / 5,
    softDrop := fun _ => some { delta_R := 1 / 4, symmetry := 2 / 5 } }

/-- A tower collection with a tower of energy 1 at every channel, 64 phi bins per eta bin. -/
def towers0 : TowerInfoContainer :=
  { get_tower_at_channel := fun _ => some 1,
    getTowerEtaBin := fun ch => ch / 64,
    getTowerPhiBin := fun ch => ch % 64 }

/-- A geometry table that puts every tower at phi = 0 and eta = 0. -/
def geom0 : RawTowerGeomContainer := { get_phi := fun _ _ => 0, get_eta := fun _ _ => 0 }

/-- A background node without underlying event or flow. -/
def background0 : TowerBackground := { get_UE := fun _ _ => 0, get_v2 := 0, get_Psi2 := 0 }

/-- Three reconstructed jets, of pT 1/2, 1 and 2. -/
def jets0 : List Jet :=
  [{ id := 1, pt := 1 / 2, eta := 0, phi := 0, e := 1, comp := [(14, 0)] },
   { id := 2, pt := 1, eta := 1 / 10, phi := 1 / 5, e := 2, comp := [(14, 0), (15, 1)] },
   { id := 3, pt := 2, eta := 3 / 10, phi := 2 / 5, e := 3, comp := [] }]

/-- An event in which every node is found. -/
def top0 : TopNode :=
  { jets := some jets0, jetsMC := some [], seedjetsraw := some [], seedjetssub := some [],
    cent_node := some { get_centile := 10, get_quantity := 3 },
    towersEM3 := some towers0, towersIH3 := some towers0, towersOH3 := some towers0,
    tower_geom := some geom0, tower_geomOH := some geom0, background := some background0 }

/-- A radius-0.4 jet of the given pT at eta = 0, with two constituents. -/
def r04Jet (pt : ℚ) : ClusteredJet :=
  { pt := pt, eta := 0,
    constituents := [{ px := 1, py := 0, pz := 0, E := 1 }, { px := 0, py := 1, pz := 0, E := 1 }] }

/-- The invariant of the specification: the six per-jet sequences have one length. -/
def seqLengthsEqual (s : State) : Prop :=
  s.m_nComponent.length = s.m_id.length ∧ s.m_eta.length = s.m_id.length
  ∧ s.m_phi.length = s.m_id.length ∧ s.m_e.length = s.m_id.length
  ∧ s.m_pt.length = s.m_id.length

instance (s : State) : Decidable (seqLengthsEqual s) := by
  unfold seqLengthsEqual; infer_instance

/-- The six per-jet sequences of a tree row have one length. -/
def rowLengthsEqual (r : TreeRow) : Prop :=
  r.nComponent.length = r.id.length ∧ r.eta.length = r.id.length
  ∧ r.phi.length = r.id.length ∧ r.e.length = r.id.length ∧ r.pt.length = r.id.length

instance (r : TreeRow) : Decidable (rowLengthsEqual r) := by
  unfold rowLengthsEqual; infer_instance

/-- The six per-jet sequences are empty. -/
def seqEmpty (s : State) : Prop :=
  s.m_id = [] ∧ s.m_nComponent = [] ∧ s.m_eta = [] ∧ s.m_phi = [] ∧ s.m_e = [] ∧ s.m_pt = []

/-- The jets that pass the noise cut of line 270, in iteration order. -/
def acceptedJets (jets : List Jet) : List Jet :=
  jets.filter (fun j => decide (j.pt ≥ 1))

/-- The four-momentum an EM-tagged constituent (tag 14 or 29) contributes when its tower is
found; `none` for a constituent of another subsystem or with a null tower. -/
def emInput (env : External) (ev : EventInputs) (comp : Nat × Nat) : Option PseudoJet :=
  if comp.1 = 14 ∨ comp.1 = 29 then
    (ev.towersEM3.get_tower_at_channel comp.2).map (fun energy => emParticle env ev energy comp.2)
  else none

/-- The four-momenta of the EM-tagged constituents of a jet whose towers are found, in
constituent order. -/
def emInputs (env : External) (ev : EventInputs) (jet : Jet) : List PseudoJet :=
  jet.comp.filterMap (emInput env ev)

/-- The event inputs `eventBody` hands to the jet loop. -/
def eventInputs (s : State) (towersEM3 towersIH3 towersOH3 : TowerInfoContainer)
    (tower_geom tower_geomOH : RawTowerGeomContainer) (background : TowerBackground) :
    EventInputs :=
  { towersEM3 := towersEM3, towersIH3 := towersIH3, towersOH3 := towersOH3,
    tower_geom := tower_geom, tower_geomOH := tower_geomOH, background := background,
    background_v2 := if s.m_doUnsubJet then background.get_v2 else 0,
    background_Psi2 := if s.m_doUnsubJet then background.get_Psi2 else 0,
    m_nJet := 0 }

/-- The standard decomposition of a tower in the words of the specification: with
pt = E / cosh(eta), the components pt cos(phi), pt sin(phi), pt sinh(eta) and the energy
E + UE (1 + 2 v2 cos(2 (phi - Psi2))). -/
def specFourMomentum (env : External) (v2 Psi2 energy UE phi eta : ℚ) : PseudoJet :=
  { px := energy / env.cosh eta * env.cos phi,
    py := energy / env.cosh eta * env.sin phi,
    pz := energy / env.cosh eta * env.sinh eta,
    E := energy + UE * (1 + 2 * v2 * env.cos (2 * (phi - Psi2))) }

/-- A stand-in for libm at the towers of `geom1` (phi = 0, eta = 7/10), with the hyperbolic
functions rounded to cosh = 5/4 and sinh = 3/4; the clustering returns nothing. -/
def env1 : External :=
  { cos := fun _ => 1, sin := fun _ => 0, sinh := fun _ => 3 / 4, cosh := fun _ => 5 / 4,
    antikt_R04 := fun _ => [], antikt_R01 := fun _ => [], delta_R := fun _ _ => 0,
    softDrop := fun _ => none }

/-- A geometry table that puts every tower at phi = 0 and eta = 7/10. -/
def geom1 : RawTowerGeomContainer := { get_phi := fun _ _ => 0, get_eta := fun _ _ => 7 / 10 }

/-- A tower collection with a tower of energy 5 at every channel. -/
def towers5 : TowerInfoContainer :=
  { get_tower_at_channel := fun _ => some 5,
    getTowerEtaBin := fun ch => ch / 64,
    getTowerPhiBin := fun ch => ch % 64 }

/-- A background node with ring baseline 1, 2, 3 for the layers 0, 1, 2 and v2 = 1/2. -/
def background1 : TowerBackground :=
  { get_UE := fun layer _ => (layer : ℚ) + 1, get_v2 := 1 / 2, get_Psi2 := 0 }

/-- Event inputs with the towers of `towers5` in all three subsystems. -/
def ev1 : EventInputs :=
  { towersEM3 := towers5, towersIH3 := towers5, towersOH3 := towers5,
    tower_geom := geom1, tower_geomOH := geom1, background := background1,
    background_v2 := 1 / 2, background_Psi2 := 0, m_nJet := 0 }

/-- A tower collection in which every channel has a null tower. -/
def nullTowers : TowerInfoContainer :=
  { get_tower_at_channel := fun _ => none,
    getTowerEtaBin := fun ch => ch / 64,
    getTowerPhiBin := fun ch => ch % 64 }

/-- A clustering that makes every particle a jet of its own, at both radii. -/
def singletonEnv : External :=
  { cos := fun _ => 1, sin := fun _ => 0, sinh := fun _ => 0, cosh := fun _ => 1,
    antikt_R04 := fun ps => ps.map (fun p => { pt := p.px, eta := 0, constituents := [p] }),
    antikt_R01 := fun ps => ps.map (fun p => { pt := p.px, eta := 0, constituents := [p] }),
    delta_R := fun _ _ => 0,
    softDrop := fun _ => none }

/-- A clustering that never returns more jets than it is given particles, but whose
radius-0.4 jet reports two constituents for one particle. -/
def doublingEnv : External :=
  { cos := fun _ => 1, sin := fun _ => 0, sinh := fun _ => 0, cosh := fun _ => 1,
    antikt_R04 := fun ps =>
      match ps with
      | [] => []
      | p :: _ => [{ pt := 22, eta := 0, constituents := [p, p] }],
    antikt_R01 := fun ps =>
      match ps with
      | a :: _ :: _ => [{ pt := 12, eta := 0, constituents := [a] },
                        { pt := 8, eta := 0, constituents := [] }]
      | _ => [],
    delta_R := fun _ _ => 1 / 5,
    softDrop := fun _ => none }

/-- Three reconstructed jets with pT below 1. -/
def noiseJets : List Jet :=
  [{ id := 1, pt := 1 / 2, eta := 0, phi := 0, e := 1, comp := [(14, 0)] },
   { id := 2, pt := 0, eta := 0, phi := 0, e := 0, comp := [] },
   { id := 3, pt := 9 / 10, eta := 0, phi := 0, e := 1, comp := [(15, 3)] }]

/-- An event with one reconstructed jet of pT 30 whose only constituent is EM-tagged. -/
def topOneEM : TopNode :=
  { jets := some [jetOfComp [(14, 0)]], jetsMC := some [], seedjetsraw := some [],
    seedjetssub := some [], cent_node := some { get_centile := 10, get_quantity := 3 },
    towersEM3 := some towers0, towersIH3 := some towers0, towersOH3 := some towers0,
    tower_geom := some geom0, tower_geomOH := some geom0, background := some background0 }

/-- The event `topOneEM` with an EM tower collection that has null towers only. -/
def topNullEM : TopNode := { topOneEM with towersEM3 := some nullTowers }

end EMJetVal

/-! ## Theorems: HCalCalibTree -/

namespace HCalCalibTree

theorem up_eq_mod (iphi : Int) (h0 : 0 ≤ iphi) (h1 : iphi < 64) : up iphi = (iphi + 1) % 64 := by
  unfold up; split <;> omega

theorem down_eq_mod (iphi : Int) (h0 : 0 ≤ iphi) (h1 : iphi < 64) : down iphi = (iphi - 1) % 64 := by
  unfold down; split <;> omega

theorem passesCuts_iff (c : Cuts) (p : Int → Int → ℚ) (ieta iphi : Int)
    (h0 : 0 ≤ iphi) (h1 : iphi < 64) :
    passesCuts c p ieta iphi = true ↔ specAccept c p ieta iphi := by
  unfold passesCuts specAccept
  rw [← up_eq_mod iphi h0 h1, ← down_eq_mod iphi h0 h1]
  simp only [gt_iff_lt, ge_iff_le, ← not_lt]
  split_ifs <;> simp only [Bool.false_eq_true, false_iff, true_iff, iff_true] <;> tauto

/-! ### The cut stage -/

/-- A list without repetition, mapped to lists that are empty away from `k`, concatenates
to the image of `k` (or to nothing when `k` is not in the list). -/
theorem bind_single {ι β : Type} [DecidableEq ι] (F : ι → List β) (k : ι) :
    ∀ l : List ι, l.Nodup → (∀ x ∈ l, x ≠ k → F x = []) →
      l.flatMap F = if k ∈ l then F k else []
  | [], _, _ => by simp
  | x :: xs, hnd, hF => by
    have hx : x ∉ xs := (List.nodup_cons.mp hnd).1
    have ih := bind_single F k xs (List.nodup_cons.mp hnd).2
      (fun y hy => hF y (List.mem_cons_of_mem _ hy))
    rw [List.flatMap_cons, ih]
    by_cases hxk : x = k
    · subst hxk
      simp [hx]
    · have : F x = [] := hF x (List.mem_cons_self _ _) hxk
      have hkx : ¬ k = x := fun h => hxk h.symm
      simp [this, hkx]

/-- A fold whose step leaves the peaks alone and appends `D peak x a b` to the spectrum of
cell `(a, b)` appends the concatenation of all the `D peak x a b`. -/
theorem foldl_appends {ι : Type} (f : State → ι → State)
    (D : (Int → Int → ℚ) → ι → Int → Int → List ℚ)
    (hp : ∀ s x, (f s x).m_peak = s.m_peak)
    (hh : ∀ s x a b, (f s x).h_channel_hist a b = s.h_channel_hist a b ++ D s.m_peak x a b) :
    ∀ (l : List ι) (s : State), (l.foldl f s).m_peak = s.m_peak ∧
      ∀ a b, (l.foldl f s).h_channel_hist a b
        = s.h_channel_hist a b ++ l.flatMap (fun x => D s.m_peak x a b)
  | [], s => by simp
  | x :: xs, s => by
    obtain ⟨ihp, ihh⟩ := foldl_appends f D hp hh xs (f s x)
    refine ⟨by rw [List.foldl_cons, ihp, hp], fun a b => ?_⟩
    rw [List.foldl_cons, ihh, hh, hp, List.flatMap_cons, List.append_assoc]

theorem cutCell_m_peak (c : Cuts) (ieta : Nat) (s : State) (iphi : Nat) :
    (cutCell c ieta s iphi).m_peak = s.m_peak := by
  unfold cutCell; dsimp only; split <;> rfl

theorem cutCell_hist (c : Cuts) (ieta : Nat) (s : State) (iphi : Nat) (a b : Int) :
    (cutCell c ieta s iphi).h_channel_hist a b
      = s.h_channel_hist a b ++ cellFill c ieta s.m_peak iphi a b := by
  unfold cutCell cellFill setCell
  dsimp only
  by_cases hpass : passesCuts c s.m_peak (ieta : Int) (iphi : Int) = true
  · by_cases hab : a = (ieta : Int) ∧ b = (iphi : Int)
    · obtain ⟨ha, hb⟩ := hab
      subst ha hb
      simp [hpass]
    · simp [hpass, hab]
  · simp [hpass]

theorem cutRow_spec (c : Cuts) (s : State) (ieta : Nat) :
    (cutRow c s ieta).m_peak = s.m_peak ∧
      ∀ a b, (cutRow c s ieta).h_channel_hist a b
        = s.h_channel_hist a b ++ rowFill c s.m_peak ieta a b := by
  unfold cutRow rowFill
  exact foldl_appends (cutCell c ieta) (cellFill c ieta)
    (cutCell_m_peak c ieta) (cutCell_hist c ieta) (List.range n_phibin) s

theorem cutLoop_spec (c : Cuts) (s : State) :
    (cutLoop c s).m_peak = s.m_peak ∧
      ∀ a b, (cutLoop c s).h_channel_hist a b
        = s.h_channel_hist a b
          ++ (List.range n_etabin).flatMap (fun ieta => rowFill c s.m_peak ieta a b) := by
  have e : cutLoop c s = List.foldl (cutRow c) s (List.range n_etabin) := rfl
  rw [e]
  exact foldl_appends (cutRow c) (rowFill c)
    (fun s x => (cutRow_spec c s x).1) (fun s x => (cutRow_spec c s x).2) (List.range n_etabin) s

/-- The fills of one row, seen from a cell of the grid. -/
theorem rowFill_eq (c : Cuts) (p : Int → Int → ℚ) (ieta : Nat) (a b : Int)
    (hb0 : 0 ≤ b) (hb1 : b < 64) :
    rowFill c p ieta a b
      = if passesCuts c p a b = true ∧ a = (ieta : Int) then [p a b] else [] := by
  unfold rowFill
  rw [bind_single _ b.toNat (List.range n_phibin) (List.nodup_range _)]
  · have hmem : b.toNat ∈ List.range n_phibin := by
      rw [List.mem_range]; unfold n_phibin; omega
    have hcast : ((b.toNat : Nat) : Int) = b := Int.toNat_of_nonneg hb0
    rw [if_pos hmem]
    unfold cellFill
    rw [hcast]
    by_cases ha : a = (ieta : Int)
    · subst ha; simp
    · simp [ha]
  · intro x _ hx
    unfold cellFill
    have : ¬ b = (x : Int) := by
      intro h; apply hx; omega
    simp [this]

/-- The fills of the whole cut stage, seen from a cell of the grid. -/
theorem cutLoop_hist (c : Cuts) (s : State) (a b : Int)
    (ha0 : 0 ≤ a) (ha1 : a < 24) (hb0 : 0 ≤ b) (hb1 : b < 64) :
    (cutLoop c s).h_channel_hist a b
      = s.h_channel_hist a b ++ (if passesCuts c s.m_peak a b = true then [s.m_peak a b] else []) := by
  rw [(cutLoop_spec c s).2 a b]
  congr 1
  rw [bind_single _ a.toNat (List.range n_etabin) (List.nodup_range _)]
  · have hmem : a.toNat ∈ List.range n_etabin := by
      rw [List.mem_range]; unfold n_etabin; omega
    have hcast : ((a.toNat : Nat) : Int) = a := Int.toNat_of_nonneg ha0
    rw [if_pos hmem, rowFill_eq c _ _ a b hb0 hb1, hcast]
    simp
  · intro x _ hx
    rw [rowFill_eq c _ _ a b hb0 hb1]
    have : ¬ a = (x : Int) := by
      intro h; apply hx; omega
    simp [this]

/-! ### The channel loop -/

theorem channelStep_hist (s : State) (t : TowerInfo) :
    (channelStep s t).h_channel_hist = s.h_channel_hist := rfl

theorem channelStep_wave (s : State) (t : TowerInfo) :
    (channelStep s t).h_waveformchi2 = s.h_waveformchi2 ++ [(t.energy, t.chi2)] := by
  simp [channelStep, setCell]

theorem channelStep_peak_self (s : State) (t : TowerInfo) :
    (channelStep s t).m_peak t.ieta t.iphi = if t.chi2 > 10000 then 0 else t.energy := by
  unfold channelStep
  by_cases h : t.chi2 > 10000 <;> simp [setCell, h]

theorem channelStep_peak_other (s : State) (t : TowerInfo) (a b : Int)
    (h : ¬ (a = t.ieta ∧ b = t.iphi)) :
    (channelStep s t).m_peak a b = s.m_peak a b := by
  unfold channelStep
  by_cases hc : t.chi2 > 10000 <;> simp [setCell, hc, h]

theorem channelLoop_hist (ts : List TowerInfo) :
    ∀ s : State, (channelLoop ts s).h_channel_hist = s.h_channel_hist := by
  unfold channelLoop
  induction ts with
  | nil => intro s; rfl
  | cons t ts ih => intro s; rw [List.foldl_cons, ih, channelStep_hist]

theorem channelLoop_wave (ts : List TowerInfo) :
    ∀ s : State, (channelLoop ts s).h_waveformchi2
      = s.h_waveformchi2 ++ ts.map (fun t => (t.energy, t.chi2)) := by
  unfold channelLoop
  induction ts with
  | nil => intro s; simp
  | cons t ts ih => intro s; rw [List.foldl_cons, ih, channelStep_wave]; simp

theorem channelLoop_peak_other (ts : List TowerInfo) (a b : Int) :
    ∀ s : State, (∀ t ∈ ts, ¬ (a = t.ieta ∧ b = t.iphi)) →
      (channelLoop ts s).m_peak a b = s.m_peak a b := by
  unfold channelLoop
  induction ts with
  | nil => intro s _; rfl
  | cons t ts ih =>
    intro s h
    rw [List.foldl_cons, ih _ (fun u hu => h u (List.mem_cons_of_mem _ hu)),
      channelStep_peak_other s t a b (h t (List.mem_cons_self _ _))]

/-- A cell written by some channel of the collection ends with a peak that does not depend
on the grid the loop started from. -/
theorem channelLoop_peak_indep (ts : List TowerInfo) (a b : Int) :
    ∀ s1 s2 : State,
      (s1.m_peak a b = s2.m_peak a b ∨ ∃ t ∈ ts, t.ieta = a ∧ t.iphi = b) →
      (channelLoop ts s1).m_peak a b = (channelLoop ts s2).m_peak a b := by
  unfold channelLoop
  induction ts with
  | nil =>
    intro s1 s2 h
    rcases h with h | ⟨t, ht, _⟩
    · exact h
    · cases ht
  | cons t ts ih =>
    intro s1 s2 h
    rw [List.foldl_cons, List.foldl_cons]
    apply ih
    by_cases hw : a = t.ieta ∧ b = t.iphi
    · left
      obtain ⟨ha, hb⟩ := hw
      subst ha hb
      rw [channelStep_peak_self, channelStep_peak_self]
    · rcases h with h | ⟨u, hu, hua, hub⟩
      · left
        rw [channelStep_peak_other s1 t a b hw, channelStep_peak_other s2 t a b hw, h]
      · rcases List.mem_cons.mp hu with rfl | hu2
        · exact absurd ⟨hua.symm, hub.symm⟩ hw
        · exact Or.inr ⟨u, hu2, hua, hub⟩

/-- The peak left in the cell of a channel when no other channel writes that cell. -/
theorem channelLoop_peak_written (ts : List TowerInfo) :
    ∀ s : State, ts.Pairwise (fun t u => ¬ (t.ieta = u.ieta ∧ t.iphi = u.iphi)) →
      ∀ t ∈ ts, (channelLoop ts s).m_peak t.ieta t.iphi
        = if t.chi2 > 10000 then 0 else t.energy := by
  induction ts with
  | nil => intro s _ t ht; cases ht
  | cons u us ih =>
    intro s hpw t ht
    have hpw2 := List.pairwise_cons.mp hpw
    have hstep : channelLoop (u :: us) s = channelLoop us (channelStep s u) := rfl
    rw [hstep]
    rcases List.mem_cons.mp ht with rfl | htus
    · rw [channelLoop_peak_other us _ _ _ (fun v hv hc => hpw2.1 v hv hc), channelStep_peak_self]
    · exact ih _ hpw2.2 t htus

/-- The cuts of an in-range cell read in-range cells only. -/
theorem passesCuts_congr (c : Cuts) (p q : Int → Int → ℚ) (a b : Int)
    (ha0 : 0 ≤ a) (ha1 : a < 24) (hb0 : 0 ≤ b) (hb1 : b < 64)
    (h : ∀ i j, 0 ≤ i → i < 24 → 0 ≤ j → j < 64 → p i j = q i j) :
    passesCuts c p a b = passesCuts c q a b := by
  have hu0 : 0 ≤ up b := by unfold up; split <;> omega
  have hu1 : up b < 64 := by unfold up; split <;> omega
  have hd0 : 0 ≤ down b := by unfold down; split <;> omega
  have hd1 : down b < 64 := by unfold down; split <;> omega
  have row : ∀ i, 0 ≤ i → i < 24 →
      p i b = q i b ∧ p i (up b) = q i (up b) ∧ p i (down b) = q i (down b) :=
    fun i hi0 hi1 => ⟨h i b hi0 hi1 hb0 hb1, h i _ hi0 hi1 hu0 hu1, h i _ hi0 hi1 hd0 hd1⟩
  obtain ⟨e1, e2, e3⟩ := row a ha0 ha1
  unfold passesCuts
  rw [e1, e2, e3]
  by_cases h0 : a = 0
  · by_cases h23 : a = 23
    · omega
    · obtain ⟨f1, f2, f3⟩ := row (a + 1) (by omega) (by omega)
      rw [f1, f2, f3]
      simp [h0]
  · by_cases h23 : a = 23
    · obtain ⟨g1, g2, g3⟩ := row (a - 1) (by omega) (by omega)
      rw [g1, g2, g3]
      simp [h23]
    · obtain ⟨f1, f2, f3⟩ := row (a + 1) (by omega) (by omega)
      obtain ⟨g1, g2, g3⟩ := row (a - 1) (by omega) (by omega)
      rw [f1, f2, f3, g1, g2, g3]

theorem process_towers_some (c : Cuts) (ts : List TowerInfo) (s : State) :
    process_towers c (some ts) s = (EVENT_OK, cutLoop c (channelLoop ts s)) := rfl

theorem snd_pair {α β : Type} (a : α) (b : β) : (a, b).2 = b := rfl

/-- The spectrum of an in-range cell after `process_towers` found the collection. -/
theorem process_towers_hist (c : Cuts) (ts : List TowerInfo) (s : State) (a b : Int)
    (ha0 : 0 ≤ a) (ha1 : a < 24) (hb0 : 0 ≤ b) (hb1 : b < 64) :
    (process_towers c (some ts) s).2.h_channel_hist a b
      = s.h_channel_hist a b ++ if passesCuts c (channelLoop ts s).m_peak a b = true
          then [(channelLoop ts s).m_peak a b] else [] := by
  rw [process_towers_some, snd_pair, cutLoop_hist c _ a b ha0 ha1 hb0 hb1, channelLoop_hist]

/-- The entries of this event in the spectrum of an in-range cell. -/
theorem eventFills_process_towers (c : Cuts) (ts : List TowerInfo) (s : State) (a b : Int)
    (ha0 : 0 ≤ a) (ha1 : a < 24) (hb0 : 0 ≤ b) (hb1 : b < 64) :
    eventFills s (process_towers c (some ts) s).2 a b
      = if passesCuts c (channelLoop ts s).m_peak a b = true
          then [(channelLoop ts s).m_peak a b] else [] := by
  unfold eventFills
  rw [process_towers_hist c ts s a b ha0 ha1 hb0 hb1, List.drop_left]

/-- C1: after the channel loop, the spectrum of an in-range cell receives an entry in this
event exactly when the cell passes the tower cut, both azimuthal neighbours (modulo 64)
pass the vertical cut, and no cell of the adjacent eta rows (none below row 0, none above
row 23) exceeds the veto threshold; the entry is then a single one, the peak of the cell. -/
theorem process_towers_fill_iff (c : Cuts) (ts : List TowerInfo) (s : State) (ieta iphi : Int)
    (he0 : 0 ≤ ieta) (he1 : ieta < 24) (hp0 : 0 ≤ iphi) (hp1 : iphi < 64) :
    (process_towers c (some ts) s).2.h_channel_hist ieta iphi
        = s.h_channel_hist ieta iphi
          ++ (if specAccept c (channelLoop ts s).m_peak ieta iphi
              then [(channelLoop ts s).m_peak ieta iphi] else [])
    ∧ (eventFills s (process_towers c (some ts) s).2 ieta iphi ≠ []
        ↔ specAccept c (channelLoop ts s).m_peak ieta iphi)
    ∧ (specAccept c (channelLoop ts s).m_peak ieta iphi
        → eventFills s (process_towers c (some ts) s).2 ieta iphi
            = [(channelLoop ts s).m_peak ieta iphi]) := by
  have hiff := passesCuts_iff c (channelLoop ts s).m_peak ieta iphi hp0 hp1
  have hf := eventFills_process_towers c ts s ieta iphi he0 he1 hp0 hp1
  have hh := process_towers_hist c ts s ieta iphi he0 he1 hp0 hp1
  by_cases hacc : specAccept c (channelLoop ts s).m_peak ieta iphi
  · have hpass := hiff.mpr hacc
    rw [if_pos hpass] at hf hh
    rw [if_pos hacc]
    exact ⟨hh, ⟨fun _ => hacc, fun _ => by rw [hf]; exact List.cons_ne_nil _ _⟩, fun _ => hf⟩
  · have hpass : ¬ passesCuts c (channelLoop ts s).m_peak ieta iphi = true :=
      fun h => hacc (hiff.mp h)
    rw [if_neg hpass] at hf hh
    rw [if_neg hacc]
    exact ⟨hh, ⟨fun h => absurd hf h, fun h => absurd h hacc⟩, fun h => absurd h hacc⟩

theorem process_towers_fill_iff_witness :
    (process_towers cuts0 (some scenario1) emptyState).2.h_channel_hist 5 10 = [500]
    ∧ (process_towers cuts0 (some scenario2) emptyState).2.h_channel_hist 5 10 = [] := by
  constructor
  · rw [(process_towers_fill_iff cuts0 scenario1 emptyState 5 10
      (by decide) (by decide) (by decide) (by decide)).1]
    decide
  · rw [(process_towers_fill_iff cuts0 scenario2 emptyState 5 10
      (by decide) (by decide) (by decide) (by decide)).1]
    decide

theorem process_event_m_peak (c : Cuts) (towers : Option (List TowerInfo)) (s : State) :
    (process_event c towers s).2.m_peak = (process_towers c towers s).2.m_peak := rfl

theorem ResetEvent_m_peak (s : State) : (ResetEvent s).2.m_peak = s.m_peak := rfl

/-- The grid that `staleState` carries into the next event. -/
theorem staleState_m_peak :
    staleState.m_peak = (channelLoop scenario1 emptyState).m_peak := by
  unfold staleState
  rw [ResetEvent_m_peak, process_event_m_peak, process_towers_some, snd_pair]
  exact (cutLoop_spec cuts0 (channelLoop scenario1 emptyState)).1

/-- C2 (counterexample): the one-channel collection `oneTower` writes cell (5,10) only.
Processed by a fresh module it gives no entry for cell (5,10); processed after an earlier
event (and its `ResetEvent`) that left 400 in cells (5,9) and (5,11), it gives the
entry 500. -/
theorem stale_peak_leaks :
    eventFills emptyState (process_towers cuts0 (some oneTower) emptyState).2 5 10 = []
    ∧ eventFills staleState (process_towers cuts0 (some oneTower) staleState).2 5 10 = [500] := by
  constructor
  · rw [eventFills_process_towers cuts0 oneTower emptyState 5 10
      (by decide) (by decide) (by decide) (by decide)]
    decide
  · have e : (channelLoop oneTower staleState).m_peak
        = (channelLoop oneTower (channelLoop scenario1 emptyState)).m_peak := by
      funext a b
      exact channelLoop_peak_indep oneTower a b _ _ (Or.inl (by rw [staleState_m_peak]))
    rw [eventFills_process_towers cuts0 oneTower staleState 5 10
      (by decide) (by decide) (by decide) (by decide), e]
    decide

/-- C2 (amended): when the tower collection writes every cell of the 24 x 64 grid, the cut
stage depends on the collection only: from any two grid states the same collection gives
the same accepted cells, the same entries in every cell spectrum and the same entries in
the correlation histogram. -/
theorem process_towers_full_cover_indep (c : Cuts) (ts : List TowerInfo) (s1 s2 : State)
    (hcover : ∀ a b : Int, 0 ≤ a → a < 24 → 0 ≤ b → b < 64 →
      ∃ t ∈ ts, t.ieta = a ∧ t.iphi = b) :
    (∀ a b : Int, 0 ≤ a → a < 24 → 0 ≤ b → b < 64 →
      passesCuts c (channelLoop ts s1).m_peak a b = passesCuts c (channelLoop ts s2).m_peak a b
      ∧ eventFills s1 (process_towers c (some ts) s1).2 a b
          = eventFills s2 (process_towers c (some ts) s2).2 a b)
    ∧ (channelLoop ts s1).h_waveformchi2.drop s1.h_waveformchi2.length
        = (channelLoop ts s2).h_waveformchi2.drop s2.h_waveformchi2.length := by
  have hgrid : ∀ i j : Int, 0 ≤ i → i < 24 → 0 ≤ j → j < 64 →
      (channelLoop ts s1).m_peak i j = (channelLoop ts s2).m_peak i j :=
    fun i j hi0 hi1 hj0 hj1 =>
      channelLoop_peak_indep ts i j s1 s2 (Or.inr (hcover i j hi0 hi1 hj0 hj1))
  refine ⟨fun a b ha0 ha1 hb0 hb1 => ?_, ?_⟩
  · have hpass := passesCuts_congr c _ _ a b ha0 ha1 hb0 hb1 hgrid
    refine ⟨hpass, ?_⟩
    rw [eventFills_process_towers c ts s1 a b ha0 ha1 hb0 hb1,
      eventFills_process_towers c ts s2 a b ha0 ha1 hb0 hb1, hpass, hgrid a b ha0 ha1 hb0 hb1]
  · rw [channelLoop_wave, channelLoop_wave, List.drop_left, List.drop_left]

/-- C3: when each grid cell is written by at most one channel, the cut stage starts with
peak 0 in the cell of every channel whose chi2 exceeds 10000, whatever its energy, and
with the channel's energy in the cell of every channel whose chi2 is at most 10000. -/
theorem channelLoop_peak_quality (ts : List TowerInfo) (s : State)
    (hdistinct : ts.Pairwise (fun t u => ¬ (t.ieta = u.ieta ∧ t.iphi = u.iphi)))
    (t : TowerInfo) (ht : t ∈ ts) :
    (t.chi2 > 10000 → (channelLoop ts s).m_peak t.ieta t.iphi = 0)
    ∧ (t.chi2 ≤ 10000 → (channelLoop ts s).m_peak t.ieta t.iphi = t.energy) := by
  have h := channelLoop_peak_written ts s hdistinct t ht
  constructor
  · intro hq; rw [h, if_pos hq]
  · intro hq; rw [h, if_neg (not_lt.mpr hq)]

/-- C4: when the tower collection is absent, `process_towers` returns EVENT_OK and changes
nothing, and `process_event` returns EVENT_OK leaving the grid and all histograms as they
were. -/
theorem process_towers_absent (c : Cuts) (s : State) :
    process_towers c none s = (EVENT_OK, s)
    ∧ (process_event c none s).1 = EVENT_OK
    ∧ (process_event c none s).2.m_peak = s.m_peak
    ∧ (process_event c none s).2.m_chi2 = s.m_chi2
    ∧ (process_event c none s).2.h_channel_hist = s.h_channel_hist
    ∧ (process_event c none s).2.h_waveformchi2 = s.h_waveformchi2 :=
  ⟨rfl, rfl, rfl, rfl, rfl, rfl⟩

theorem fullTowers_cover (a b : Int) (ha0 : 0 ≤ a) (ha1 : a < 24) (hb0 : 0 ≤ b) (hb1 : b < 64) :
    ∃ t ∈ fullTowers, t.ieta = a ∧ t.iphi = b := by
  have hma : a.toNat ∈ List.range n_etabin := by
    rw [List.mem_range]; unfold n_etabin; omega
  have hmb : b.toNat ∈ List.range n_phibin := by
    rw [List.mem_range]; unfold n_phibin; omega
  refine ⟨{ energy := if a.toNat = 5 ∧ b.toNat = 10 then 500 else 0, chi2 := 0,
            ieta := a, iphi := b }, ?_, rfl, rfl⟩
  unfold fullTowers
  rw [List.mem_flatMap]
  refine ⟨a.toNat, hma, ?_⟩
  rw [List.mem_map]
  refine ⟨b.toNat, hmb, ?_⟩
  rw [Int.toNat_of_nonneg ha0, Int.toNat_of_nonneg hb0]

theorem process_towers_full_cover_indep_witness :
    (∀ a b : Int, 0 ≤ a → a < 24 → 0 ≤ b → b < 64 → ∃ t ∈ fullTowers, t.ieta = a ∧ t.iphi = b)
    ∧ eventFills emptyState (process_towers cuts0 (some fullTowers) emptyState).2 5 10
        = eventFills staleState (process_towers cuts0 (some fullTowers) staleState).2 5 10 :=
  ⟨fullTowers_cover,
    ((process_towers_full_cover_indep cuts0 fullTowers emptyState staleState fullTowers_cover).1
      5 10 (by decide) (by decide) (by decide) (by decide)).2⟩

theorem channelLoop_peak_quality_witness :
    (channelLoop noisyTowers emptyState).m_peak 3 4 = 0
    ∧ (channelLoop noisyTowers emptyState).m_peak 5 10 = 500 :=
  ⟨(channelLoop_peak_quality noisyTowers emptyState (by decide)
      { energy := -700, chi2 := 20000, ieta := 3, iphi := 4 } (by simp [noisyTowers])).1
      (by norm_num),
   (channelLoop_peak_quality noisyTowers emptyState (by decide)
      { energy := 500, chi2 := 0, ieta := 5, iphi := 10 } (by simp [noisyTowers])).2
      (by norm_num)⟩

end HCalCalibTree

/-! ## Theorems: EMJetVal -/

namespace EMJetVal

/-! ### Node lookup -/

/-- C5: `process_event` ends in `exit(-1)` exactly when a mandatory input is missing, and
then no member other than the event counter has changed (no sequence appended, no
histogram filled, no tree row); with every mandatory input present and the background
estimator missing it returns EVENT_OK, again with nothing appended and no tree row. -/
theorem process_event_missing_inputs (env : External) (top : TopNode) (s : State) :
    ((process_event env top s).isExit = true ↔ mandatoryMissing s top)
    ∧ (mandatoryMissing s top →
        process_event env top s = .exited (-1) { s with m_event := s.m_event + 1 })
    ∧ (¬ mandatoryMissing s top → top.background = none →
        process_event env top s = .returned EVENT_OK { s with m_event := s.m_event + 1 }) := by
  obtain ⟨jets, jetsMC, seedjetsraw, seedjetssub, cent_node, towersEM3, towersIH3, towersOH3,
    tower_geom, tower_geomOH, background⟩ := top
  unfold process_event mandatoryMissing
  cases jets with
  | none => simp [Outcome.isExit]
  | some jets =>
    dsimp only
    by_cases h1 : jetsMC.isNone = true ∧ s.m_doTruthJets = true
    · have : jetsMC = none := Option.isNone_iff_eq_none.mp h1.1
      rw [if_pos h1]
      simp [Outcome.isExit, h1.2, this]
    · rw [if_neg h1]
      by_cases h2 : seedjetsraw.isNone = true ∧ s.m_doSeeds = true
      · have : seedjetsraw = none := Option.isNone_iff_eq_none.mp h2.1
        rw [if_pos h2]
        simp [Outcome.isExit, h2.2, this]
      · rw [if_neg h2]
        by_cases h3 : seedjetssub.isNone = true ∧ s.m_doSeeds = true
        · have : seedjetssub = none := Option.isNone_iff_eq_none.mp h3.1
          rw [if_pos h3]
          simp [Outcome.isExit, h3.2, this]
        · rw [if_neg h3]
          have k1 : ¬ (s.m_doTruthJets = true ∧ jetsMC = none) :=
            fun h => h1 ⟨Option.isNone_iff_eq_none.mpr h.2, h.1⟩
          have k2 : ¬ (s.m_doSeeds = true ∧ (seedjetsraw = none ∨ seedjetssub = none)) := by
            rintro ⟨hf, h | h⟩
            · exact h2 ⟨Option.isNone_iff_eq_none.mpr h, hf⟩
            · exact h3 ⟨Option.isNone_iff_eq_none.mpr h, hf⟩
          cases cent_node with
          | none => simp [Outcome.isExit]
          | some cent_node =>
            cases towersEM3 with
            | none => simp [Outcome.isExit]
            | some towersEM3 =>
              cases towersIH3 with
              | none => simp [Outcome.isExit]
              | some towersIH3 =>
                cases towersOH3 with
                | none => simp [Outcome.isExit]
                | some towersOH3 =>
                  cases tower_geom with
                  | none => simp [Outcome.isExit]
                  | some tower_geom =>
                    cases tower_geomOH with
                    | none => simp [Outcome.isExit]
                    | some tower_geomOH =>
                      cases background with
                      | none => simp [Outcome.isExit, k1, k2]
                      | some background => simp [Outcome.isExit, k1, k2]

theorem process_event_missing_inputs_witness :
    (process_event env0 { top0 with jets := none } (constructed false false true)).isExit = true
    ∧ process_event env0 { top0 with jets := none } (constructed false false true)
        = .exited (-1) { constructed false false true with m_event := -1 + 1 }
    ∧ process_event env0 { top0 with background := none } (constructed false false true)
        = .returned EVENT_OK { constructed false false true with m_event := -1 + 1 } :=
  ⟨(process_event_missing_inputs env0 { top0 with jets := none }
      (constructed false false true)).1.mpr (Or.inl rfl),
   (process_event_missing_inputs env0 { top0 with jets := none }
      (constructed false false true)).2.1 (Or.inl rfl),
   (process_event_missing_inputs env0 { top0 with background := none }
      (constructed false false true)).2.2 (by simp [mandatoryMissing, top0, constructed]) rfl⟩

/-! ### The jet loop and the per-jet sequences -/

/-- When no mandatory input is missing and the background estimator is found,
`process_event` returns EVENT_OK after running `eventBody` on the nodes. -/
theorem process_event_present (env : External) (top : TopNode) (s : State) (jets : List Jet)
    (background : TowerBackground) (hjets : top.jets = some jets)
    (hmand : ¬ mandatoryMissing s top) (hbg : top.background = some background) :
    ∃ cent_node towersEM3 towersIH3 towersOH3 tower_geom tower_geomOH,
      process_event env top s = .returned EVENT_OK
        (eventBody env jets cent_node towersEM3 towersIH3 towersOH3 tower_geom tower_geomOH
          background { s with m_event := s.m_event + 1 }) := by
  obtain ⟨jets0, jetsMC, seedjetsraw, seedjetssub, cent_node, towersEM3, towersIH3, towersOH3,
    tower_geom, tower_geomOH, background0⟩ := top
  simp only at hjets hbg
  subst hjets hbg
  unfold mandatoryMissing at hmand
  simp only [not_or] at hmand
  obtain ⟨_, m1, m2, m3, m4, m5, m6, m7, m8⟩ := hmand
  cases cent_node with
  | none => exact absurd rfl m3
  | some cent_node =>
  cases towersEM3 with
  | none => exact absurd rfl m4
  | some towersEM3 =>
  cases towersIH3 with
  | none => exact absurd rfl m5
  | some towersIH3 =>
  cases towersOH3 with
  | none => exact absurd rfl m6
  | some towersOH3 =>
  cases tower_geom with
  | none => exact absurd rfl m7
  | some tower_geom =>
  cases tower_geomOH with
  | none => exact absurd rfl m8
  | some tower_geomOH =>
  refine ⟨cent_node, towersEM3, towersIH3, towersOH3, tower_geom, tower_geomOH, ?_⟩
  have h1 : ¬ (jetsMC.isNone = true ∧ s.m_doTruthJets = true) :=
    fun h => m1 ⟨h.2, Option.isNone_iff_eq_none.mp h.1⟩
  have h2 : ¬ (seedjetsraw.isNone = true ∧ s.m_doSeeds = true) :=
    fun h => m2 ⟨h.2, Or.inl (Option.isNone_iff_eq_none.mp h.1)⟩
  have h3 : ¬ (seedjetssub.isNone = true ∧ s.m_doSeeds = true) :=
    fun h => m2 ⟨h.2, Or.inr (Option.isNone_iff_eq_none.mp h.1)⟩
  unfold process_event
  dsimp only
  rw [if_neg h1, if_neg h2, if_neg h3]

/-- The jets that pass the noise cut of line 270. -/
theorem jetStep_sequences (env : External) (ev : EventInputs) (s : State) (jet : Jet) :
    (jetStep env ev s jet).m_id = s.m_id ++ (if jet.pt ≥ 1 then [jet.id] else [])
    ∧ (jetStep env ev s jet).m_nComponent
        = s.m_nComponent ++ (if jet.pt ≥ 1 then [jet.comp.length] else [])
    ∧ (jetStep env ev s jet).m_eta = s.m_eta ++ (if jet.pt ≥ 1 then [jet.eta] else [])
    ∧ (jetStep env ev s jet).m_phi = s.m_phi ++ (if jet.pt ≥ 1 then [jet.phi] else [])
    ∧ (jetStep env ev s jet).m_e = s.m_e ++ (if jet.pt ≥ 1 then [jet.e] else [])
    ∧ (jetStep env ev s jet).m_pt = s.m_pt ++ (if jet.pt ≥ 1 then [jet.pt] else []) := by
  unfold jetStep
  by_cases h : jet.pt < 1
  · have h2 : ¬ jet.pt ≥ 1 := not_le.mpr h
    simp [h, h2]
  · have h2 : jet.pt ≥ 1 := not_lt.mp h
    rw [if_neg h]
    dsimp only
    split <;> simp [h2]

theorem jetLoop_sequences (env : External) (ev : EventInputs) (jets : List Jet) :
    ∀ s : State,
      (jets.foldl (jetStep env ev) s).m_id
          = s.m_id ++ (jets.filter (fun j => decide (j.pt ≥ 1))).map Jet.id
      ∧ (jets.foldl (jetStep env ev) s).m_nComponent
          = s.m_nComponent ++ (jets.filter (fun j => decide (j.pt ≥ 1))).map (fun j => j.comp.length)
      ∧ (jets.foldl (jetStep env ev) s).m_eta
          = s.m_eta ++ (jets.filter (fun j => decide (j.pt ≥ 1))).map Jet.eta
      ∧ (jets.foldl (jetStep env ev) s).m_phi
          = s.m_phi ++ (jets.filter (fun j => decide (j.pt ≥ 1))).map Jet.phi
      ∧ (jets.foldl (jetStep env ev) s).m_e
          = s.m_e ++ (jets.filter (fun j => decide (j.pt ≥ 1))).map Jet.e
      ∧ (jets.foldl (jetStep env ev) s).m_pt
          = s.m_pt ++ (jets.filter (fun j => decide (j.pt ≥ 1))).map Jet.pt := by
  induction jets with
  | nil => intro s; simp
  | cons jet jets ih =>
    intro s
    obtain ⟨i1, i2, i3, i4, i5, i6⟩ := ih (jetStep env ev s jet)
    obtain ⟨j1, j2, j3, j4, j5, j6⟩ := jetStep_sequences env ev s jet
    rw [List.foldl_cons, i1, i2, i3, i4, i5, i6, j1, j2, j3, j4, j5, j6]
    by_cases h : jet.pt ≥ 1 <;> simp [List.filter_cons, h]

theorem eventBody_sequences (env : External) (jets : List Jet) (cent_node : CentralityInfo)
    (towersEM3 towersIH3 towersOH3 : TowerInfoContainer)
    (tower_geom tower_geomOH : RawTowerGeomContainer) (background : TowerBackground)
    (s : State) :
    let s2 := eventBody env jets cent_node towersEM3 towersIH3 towersOH3 tower_geom
      tower_geomOH background s
    s2.m_id = s.m_id ++ (jets.filter (fun j => decide (j.pt ≥ 1))).map Jet.id
    ∧ s2.m_nComponent
        = s.m_nComponent ++ (jets.filter (fun j => decide (j.pt ≥ 1))).map (fun j => j.comp.length)
    ∧ s2.m_eta = s.m_eta ++ (jets.filter (fun j => decide (j.pt ≥ 1))).map Jet.eta
    ∧ s2.m_phi = s.m_phi ++ (jets.filter (fun j => decide (j.pt ≥ 1))).map Jet.phi
    ∧ s2.m_e = s.m_e ++ (jets.filter (fun j => decide (j.pt ≥ 1))).map Jet.e
    ∧ s2.m_pt = s.m_pt ++ (jets.filter (fun j => decide (j.pt ≥ 1))).map Jet.pt := by
  intro s2
  exact jetLoop_sequences env _ jets _

/-- C10: starting from empty per-jet sequences, a `process_event` call that finds its
inputs returns EVENT_OK with the six sequences equal to the id, constituent count, eta,
phi, energy and pt of the jets with pt >= 1, in the iteration order of the collection;
jets with pt below 1 contribute nothing and pt exactly 1 is kept. -/
theorem process_event_sequences (env : External) (top : TopNode) (s : State) (jets : List Jet)
    (hjets : top.jets = some jets) (hmand : ¬ mandatoryMissing s top)
    (hbg : top.background ≠ none)
    (hid : s.m_id = []) (hn : s.m_nComponent = []) (heta : s.m_eta = [])
    (hphi : s.m_phi = []) (he : s.m_e = []) (hpt : s.m_pt = []) :
    (process_event env top s).isExit = false
    ∧ (process_event env top s).code = EVENT_OK
    ∧ (process_event env top s).state.m_id
        = (jets.filter (fun j => decide (j.pt ≥ 1))).map Jet.id
    ∧ (process_event env top s).state.m_nComponent
        = (jets.filter (fun j => decide (j.pt ≥ 1))).map (fun j => j.comp.length)
    ∧ (process_event env top s).state.m_eta
        = (jets.filter (fun j => decide (j.pt ≥ 1))).map Jet.eta
    ∧ (process_event env top s).state.m_phi
        = (jets.filter (fun j => decide (j.pt ≥ 1))).map Jet.phi
    ∧ (process_event env top s).state.m_e
        = (jets.filter (fun j => decide (j.pt ≥ 1))).map Jet.e
    ∧ (process_event env top s).state.m_pt
        = (jets.filter (fun j => decide (j.pt ≥ 1))).map Jet.pt := by
  obtain ⟨background, hbg2⟩ := Option.ne_none_iff_exists'.mp hbg
  obtain ⟨cent_node, towersEM3, towersIH3, towersOH3, tower_geom, tower_geomOH, hrun⟩ :=
    process_event_present env top s jets background hjets hmand hbg2
  obtain ⟨e1, e2, e3, e4, e5, e6⟩ := eventBody_sequences env jets cent_node towersEM3
    towersIH3 towersOH3 tower_geom tower_geomOH background { s with m_event := s.m_event + 1 }
  rw [hrun]
  simp only [Outcome.isExit, Outcome.code, Outcome.state]
  rw [e1, e2, e3, e4, e5, e6]
  simp [hid, hn, heta, hphi, he, hpt]

theorem process_event_sequences_witness :
    (process_event env0 top0 (constructed false false true)).isExit = false
    ∧ (process_event env0 top0 (constructed false false true)).state.m_id = [2, 3]
    ∧ (process_event env0 top0 (constructed false false true)).state.m_nComponent = [2, 0]
    ∧ (process_event env0 top0 (constructed false false true)).state.m_pt = [1, 2] := by
  have h := process_event_sequences env0 top0 (constructed false false true) jets0 rfl
    (by simp [mandatoryMissing, top0, constructed]) (by simp [top0]) rfl rfl rfl rfl rfl rfl
  refine ⟨h.1, ?_, ?_, ?_⟩
  · rw [h.2.2.1]; norm_num [jets0, List.filter_cons]
  · rw [h.2.2.2.1]; norm_num [jets0, List.filter_cons]
  · rw [h.2.2.2.2.2.2.2]; norm_num [jets0, List.filter_cons]

/-! ### The pT bands -/

theorem block_15_25_band (env : External) (jet : ClusteredJet) (theta_sj z_sj : ℚ) :
    ∀ f ∈ (block_15_25 env jet theta_sj z_sj).1, ∀ b : Band,
      f.hist.substructureBand = some b → b.lo < jet.pt ∧ jet.pt < b.hi := by
  unfold block_15_25 softDropFills overallFills
  split_ifs <;> cases env.softDrop jet <;>
    simp_all [Hist.substructureBand, Band.lo, Band.hi]

theorem block_25_30_band (env : External) (jet : ClusteredJet) (theta_sj z_sj : ℚ) :
    ∀ f ∈ (block_25_30 env jet theta_sj z_sj).1, ∀ b : Band,
      f.hist.substructureBand = some b → b.lo < jet.pt ∧ jet.pt < b.hi := by
  unfold block_25_30 softDropFills overallFills
  split_ifs <;> cases env.softDrop jet <;>
    simp_all [Hist.substructureBand, Band.lo, Band.hi]

theorem block_30_40_band (env : External) (jet : ClusteredJet) (theta_sj z_sj : ℚ) :
    ∀ f ∈ (block_30_40 env jet theta_sj z_sj).1, ∀ b : Band,
      f.hist.substructureBand = some b → b.lo < jet.pt ∧ jet.pt < b.hi := by
  unfold block_30_40 softDropFills overallFills
  split_ifs <;> cases env.softDrop jet <;>
    simp_all [Hist.substructureBand, Band.lo, Band.hi]

/-- Every fill of the band classification comes from one of the three blocks or is the
closing `_hmult_R04->Fill(m_nJet)`. -/
theorem mem_bandFills (env : External) (m_nJet : Int) (jet : ClusteredJet) (theta_sj z_sj : ℚ)
    (f : Fill) (hf : f ∈ bandFills env m_nJet jet theta_sj z_sj) :
    f ∈ (block_15_25 env jet theta_sj z_sj).1 ∨ f ∈ (block_25_30 env jet theta_sj z_sj).1
      ∨ f ∈ (block_30_40 env jet theta_sj z_sj).1
      ∨ f = { hist := ._hmult_R04, x := (m_nJet : ℚ) } := by
  unfold bandFills at hf
  dsimp only at hf
  split_ifs at hf <;> (try simp only [List.mem_append, List.mem_singleton] at hf) <;> tauto

/-- A substructure histogram is filled only for a jet strictly inside the band of that
histogram. -/
theorem bandFills_substructure (env : External) (m_nJet : Int) (jet : ClusteredJet)
    (theta_sj z_sj : ℚ) (f : Fill) (hf : f ∈ bandFills env m_nJet jet theta_sj z_sj)
    (b : Band) (hb : f.hist.substructureBand = some b) :
    b.lo < jet.pt ∧ jet.pt < b.hi := by
  rcases mem_bandFills env m_nJet jet theta_sj z_sj f hf with h | h | h | h
  · exact block_15_25_band env jet theta_sj z_sj f h b hb
  · exact block_25_30_band env jet theta_sj z_sj f h b hb
  · exact block_30_40_band env jet theta_sj z_sj f h b hb
  · subst h
    simp [Hist.substructureBand] at hb

/-- Two bands that contain the same pT are the same band. -/
theorem band_unique (pt : ℚ) (b1 b2 : Band) (h1 : b1.lo < pt ∧ pt < b1.hi)
    (h2 : b2.lo < pt ∧ pt < b2.hi) : b1 = b2 := by
  obtain ⟨l1, u1⟩ := h1
  obtain ⟨l2, u2⟩ := h2
  cases b1 <;> cases b2 <;> first | rfl | (exfalso; simp only [Band.lo, Band.hi] at l1 u1 l2 u2; linarith)

theorem block_15_25_subset (env : External) (m_nJet : Int) (jet : ClusteredJet)
    (theta_sj z_sj : ℚ) (f : Fill) (hf : f ∈ (block_15_25 env jet theta_sj z_sj).1) :
    f ∈ bandFills env m_nJet jet theta_sj z_sj := by
  unfold bandFills
  dsimp only
  split_ifs <;> (try simp only [List.mem_append]) <;> tauto

theorem block_25_30_subset (env : External) (m_nJet : Int) (jet : ClusteredJet)
    (theta_sj z_sj : ℚ) (h1 : (block_15_25 env jet theta_sj z_sj).2 = false)
    (f : Fill) (hf : f ∈ (block_25_30 env jet theta_sj z_sj).1) :
    f ∈ bandFills env m_nJet jet theta_sj z_sj := by
  unfold bandFills
  dsimp only
  rw [h1]
  split_ifs <;> (try simp only [List.mem_append]) <;> tauto

theorem block_30_40_subset (env : External) (m_nJet : Int) (jet : ClusteredJet)
    (theta_sj z_sj : ℚ) (h1 : (block_15_25 env jet theta_sj z_sj).2 = false)
    (h2 : (block_25_30 env jet theta_sj z_sj).2 = false)
    (f : Fill) (hf : f ∈ (block_30_40 env jet theta_sj z_sj).1) :
    f ∈ bandFills env m_nJet jet theta_sj z_sj := by
  unfold bandFills
  dsimp only
  rw [h1, h2]
  split_ifs <;> (try simp only [List.mem_append]) <;> tauto

theorem block_15_25_else (env : External) (jet : ClusteredJet) (theta_sj z_sj : ℚ)
    (n1 : ¬ (jet.pt > 15 ∧ jet.pt < 20)) (n2 : ¬ (jet.pt > 20 ∧ jet.pt < 25)) :
    block_15_25 env jet theta_sj z_sj
      = ([{ hist := ._hmult_R04_pT_20_25GeV, x := (jet.constituents.length : ℚ) }], false) := by
  unfold block_15_25
  rw [if_neg n1, if_neg n2]

theorem block_25_30_else (env : External) (jet : ClusteredJet) (theta_sj z_sj : ℚ)
    (n3 : ¬ (jet.pt > 25 ∧ jet.pt < 30)) :
    block_25_30 env jet theta_sj z_sj
      = ([{ hist := ._hmult_R04_pT_25_30GeV, x := (jet.constituents.length : ℚ) }], false) := by
  unfold block_25_30
  rw [if_neg n3]

/-- A jet strictly inside a band fills the z_sj and theta_sj histograms of that band with
its z_sj and theta_sj. -/
theorem bandFills_in_band (env : External) (m_nJet : Int) (jet : ClusteredJet)
    (theta_sj z_sj : ℚ) (b : Band) (h : b.lo < jet.pt ∧ jet.pt < b.hi) :
    ({ hist := b.z_sj_hist, x := z_sj } : Fill) ∈ bandFills env m_nJet jet theta_sj z_sj
    ∧ ({ hist := b.theta_sj_hist, x := theta_sj } : Fill)
        ∈ bandFills env m_nJet jet theta_sj z_sj := by
  obtain ⟨lo, hi⟩ := h
  cases b <;> simp only [Band.lo, Band.hi] at lo hi
  · have p1 : jet.pt > 15 ∧ jet.pt < 20 := ⟨lo, hi⟩
    constructor <;> apply block_15_25_subset <;> unfold block_15_25 <;>
      simp [p1, Band.z_sj_hist, Band.theta_sj_hist]
  · have n1 : ¬ (jet.pt > 15 ∧ jet.pt < 20) := fun h => by linarith [h.2]
    have p2 : jet.pt > 20 ∧ jet.pt < 25 := ⟨lo, hi⟩
    constructor <;> apply block_15_25_subset <;> unfold block_15_25 <;>
      simp [n1, p2, Band.z_sj_hist, Band.theta_sj_hist]
  · have n1 : ¬ (jet.pt > 15 ∧ jet.pt < 20) := fun h => by linarith [h.2]
    have n2 : ¬ (jet.pt > 20 ∧ jet.pt < 25) := fun h => by linarith [h.2]
    have p3 : jet.pt > 25 ∧ jet.pt < 30 := ⟨lo, hi⟩
    have e1 : (block_15_25 env jet theta_sj z_sj).2 = false := by
      rw [block_15_25_else env jet theta_sj z_sj n1 n2]
    constructor <;> apply block_25_30_subset env m_nJet jet theta_sj z_sj e1 <;>
      unfold block_25_30 <;> simp [p3, Band.z_sj_hist, Band.theta_sj_hist]
  · have n1 : ¬ (jet.pt > 15 ∧ jet.pt < 20) := fun h => by linarith [h.2]
    have n2 : ¬ (jet.pt > 20 ∧ jet.pt < 25) := fun h => by linarith [h.2]
    have n3 : ¬ (jet.pt > 25 ∧ jet.pt < 30) := fun h => by linarith [h.2]
    have p4 : jet.pt > 30 ∧ jet.pt < 40 := ⟨lo, hi⟩
    have e1 : (block_15_25 env jet theta_sj z_sj).2 = false := by
      rw [block_15_25_else env jet theta_sj z_sj n1 n2]
    have e2 : (block_25_30 env jet theta_sj z_sj).2 = false := by
      rw [block_25_30_else env jet theta_sj z_sj n3]
    constructor <;> apply block_30_40_subset env m_nJet jet theta_sj z_sj e1 e2 <;>
      unfold block_30_40 <;> simp [p4, Band.z_sj_hist, Band.theta_sj_hist]

/-- C6 (the code at the failing input): for a jet with two EM-tagged constituents whose
towers exist, the radius-0.4 clustering is constructed twice, each time from the single
four-momentum of the current constituent, and never from the list of both. -/
theorem compLoop_two_em_constituents (env : External) (ev : EventInputs) (energy : Nat → ℚ)
    (c0 c1 : Nat) :
    (compLoop env (withEMTowers ev energy) (jetOfComp [(14, c0), (14, c1)])).clustSeq_R04
      = [[emParticle env (withEMTowers ev energy) (energy c0) c0],
         [emParticle env (withEMTowers ev energy) (energy c1) c1]]
    ∧ (compLoop env (withEMTowers ev energy) (jetOfComp [(14, c0), (14, c1)])).clustSeq_R04
      ≠ [[emParticle env (withEMTowers ev energy) (energy c0) c0,
          emParticle env (withEMTowers ev energy) (energy c1) c1]] := by
  have e : (compLoop env (withEMTowers ev energy) (jetOfComp [(14, c0), (14, c1)])).clustSeq_R04
      = [[emParticle env (withEMTowers ev energy) (energy c0) c0],
         [emParticle env (withEMTowers ev energy) (energy c1) c1]] := by
    simp [compLoop, compStep, emStep, jetOfComp, withEMTowers, Locals.init]
  rw [e]
  exact ⟨rfl, by simp⟩

theorem block_15_25_values (env : External) (jet : ClusteredJet) (theta_sj z_sj : ℚ) :
    ∀ b : Band, ∀ f ∈ (block_15_25 env jet theta_sj z_sj).1,
      (f.hist = b.z_sj_hist → f.x = z_sj ∧ f.y = none)
      ∧ (f.hist = b.theta_sj_hist → f.x = theta_sj ∧ f.y = none) := by
  intro b
  unfold block_15_25 softDropFills overallFills
  cases b <;> split_ifs <;> cases env.softDrop jet <;>
    simp_all [Band.z_sj_hist, Band.theta_sj_hist]

theorem block_25_30_values (env : External) (jet : ClusteredJet) (theta_sj z_sj : ℚ) :
    ∀ b : Band, ∀ f ∈ (block_25_30 env jet theta_sj z_sj).1,
      (f.hist = b.z_sj_hist → f.x = z_sj ∧ f.y = none)
      ∧ (f.hist = b.theta_sj_hist → f.x = theta_sj ∧ f.y = none) := by
  intro b
  unfold block_25_30 softDropFills overallFills
  cases b <;> split_ifs <;> cases env.softDrop jet <;>
    simp_all [Band.z_sj_hist, Band.theta_sj_hist]

theorem block_30_40_values (env : External) (jet : ClusteredJet) (theta_sj z_sj : ℚ) :
    ∀ b : Band, ∀ f ∈ (block_30_40 env jet theta_sj z_sj).1,
      (f.hist = b.z_sj_hist → f.x = z_sj ∧ f.y = none)
      ∧ (f.hist = b.theta_sj_hist → f.x = theta_sj ∧ f.y = none) := by
  intro b
  unfold block_30_40 softDropFills overallFills
  cases b <;> split_ifs <;> cases env.softDrop jet <;>
    simp_all [Band.z_sj_hist, Band.theta_sj_hist]

/-- Every entry of a z_sj histogram is the z_sj of the jet and every entry of a theta_sj
histogram its theta_sj. -/
theorem bandFills_values (env : External) (m_nJet : Int) (jet : ClusteredJet)
    (theta_sj z_sj : ℚ) (b : Band) (f : Fill)
    (hf : f ∈ bandFills env m_nJet jet theta_sj z_sj) :
    (f.hist = b.z_sj_hist → f.x = z_sj ∧ f.y = none)
    ∧ (f.hist = b.theta_sj_hist → f.x = theta_sj ∧ f.y = none) := by
  rcases mem_bandFills env m_nJet jet theta_sj z_sj f hf with h | h | h | h
  · exact block_15_25_values env jet theta_sj z_sj b f h
  · exact block_25_30_values env jet theta_sj z_sj b f h
  · exact block_30_40_values env jet theta_sj z_sj b f h
  · subst h
    cases b <;> simp [Band.z_sj_hist, Band.theta_sj_hist]

/-- The loop body for a jet inside the eta acceptance with at least two sub-jets. -/
theorem r04JetFills_two_subjets (env : External) (m_nJet : Int) (jet sj1 sj2 : ClusteredJet)
    (rest : List ClusteredJet) (heta : |jet.eta| ≤ 0.6)
    (hsub : env.antikt_R01 jet.constituents = sj1 :: sj2 :: rest) :
    r04JetFills env m_nJet jet
      = bandFills env m_nJet jet (env.delta_R sj1 sj2) (z_sj sj1 sj2) := by
  unfold r04JetFills
  rw [if_neg (not_lt.mpr heta), hsub]

/-- C9: the substructure histograms (z_sj, theta_sj, z_g, theta_g and the two correlations)
filled for one radius-0.4 jet all belong to one band; a jet whose pT lies inside a band
fills the z_sj and theta_sj histograms of that band, every entry of them being its z_sj and
its theta_sj, and fills no substructure histogram of another band; in particular a jet of
pT 22 whose two leading sub-jets have pT 12 and 8 fills the z_sj histogram of the 20-25 band
with 2/5 and no substructure histogram of another band. -/
theorem substructure_one_band (env : External) (m_nJet : Int) (jet : ClusteredJet) :
    (∀ (theta_sj z_sj : ℚ) (f1 f2 : Fill) (b1 b2 : Band),
        f1 ∈ bandFills env m_nJet jet theta_sj z_sj →
        f2 ∈ bandFills env m_nJet jet theta_sj z_sj →
        f1.hist.substructureBand = some b1 → f2.hist.substructureBand = some b2 → b1 = b2)
    ∧ (∀ (theta_sj z_sj : ℚ) (b : Band), (b.lo < jet.pt ∧ jet.pt < b.hi) →
        ({ hist := b.z_sj_hist, x := z_sj } : Fill) ∈ bandFills env m_nJet jet theta_sj z_sj
        ∧ ({ hist := b.theta_sj_hist, x := theta_sj } : Fill)
            ∈ bandFills env m_nJet jet theta_sj z_sj
        ∧ (∀ f ∈ bandFills env m_nJet jet theta_sj z_sj,
            (f.hist = b.z_sj_hist → f.x = z_sj ∧ f.y = none)
            ∧ (f.hist = b.theta_sj_hist → f.x = theta_sj ∧ f.y = none))
        ∧ ∀ f ∈ bandFills env m_nJet jet theta_sj z_sj, ∀ b2 : Band,
            f.hist.substructureBand = some b2 → b2 = b)
    ∧ (∀ (sj1 sj2 : ClusteredJet) (rest : List ClusteredJet) (b : Band),
        |jet.eta| ≤ 0.6 → env.antikt_R01 jet.constituents = sj1 :: sj2 :: rest →
        (b.lo < jet.pt ∧ jet.pt < b.hi) →
        ({ hist := b.z_sj_hist, x := sj2.pt / (sj2.pt + sj1.pt) } : Fill)
            ∈ r04JetFills env m_nJet jet
        ∧ ∀ f ∈ r04JetFills env m_nJet jet, ∀ b2 : Band,
            f.hist.substructureBand = some b2 → b2 = b)
    ∧ (∀ (sj1 sj2 : ClusteredJet) (rest : List ClusteredJet),
        |jet.eta| ≤ 0.6 → env.antikt_R01 jet.constituents = sj1 :: sj2 :: rest →
        jet.pt = 22 → sj1.pt = 12 → sj2.pt = 8 →
        ({ hist := ._h_R04_z_sj_20_25, x := 2 / 5 } : Fill) ∈ r04JetFills env m_nJet jet
        ∧ ∀ f ∈ r04JetFills env m_nJet jet, ∀ b : Band,
            f.hist.substructureBand = some b → b = .pT_20_25) := by
  refine ⟨?_, ?_, ?_, ?_⟩
  · intro theta_sj z_sj f1 f2 b1 b2 h1 h2 hb1 hb2
    exact band_unique jet.pt b1 b2
      (bandFills_substructure env m_nJet jet theta_sj z_sj f1 h1 b1 hb1)
      (bandFills_substructure env m_nJet jet theta_sj z_sj f2 h2 b2 hb2)
  · intro theta_sj z_sj b hin
    refine ⟨(bandFills_in_band env m_nJet jet theta_sj z_sj b hin).1,
      (bandFills_in_band env m_nJet jet theta_sj z_sj b hin).2,
      fun f hf => bandFills_values env m_nJet jet theta_sj z_sj b f hf, ?_⟩
    intro f hf b2 hb2
    exact band_unique jet.pt b2 b
      (bandFills_substructure env m_nJet jet theta_sj z_sj f hf b2 hb2) hin
  · intro sj1 sj2 rest b heta hsub hin
    rw [r04JetFills_two_subjets env m_nJet jet sj1 sj2 rest heta hsub]
    constructor
    · exact (bandFills_in_band env m_nJet jet (env.delta_R sj1 sj2) (z_sj sj1 sj2) b hin).1
    · intro f hf b2 hb2
      exact band_unique jet.pt b2 b
        (bandFills_substructure env m_nJet jet _ _ f hf b2 hb2) hin
  · intro sj1 sj2 rest heta hsub hpt h1 h2
    have hz : z_sj sj1 sj2 = 2 / 5 := by
      unfold z_sj; rw [h1, h2]; norm_num
    have hin : Band.pT_20_25.lo < jet.pt ∧ jet.pt < Band.pT_20_25.hi := by
      rw [hpt]; norm_num [Band.lo, Band.hi]
    rw [r04JetFills_two_subjets env m_nJet jet sj1 sj2 rest heta hsub]
    constructor
    · rw [hz]
      exact (bandFills_in_band env m_nJet jet (env.delta_R sj1 sj2) (2 / 5) .pT_20_25 hin).1
    · intro f hf b hb
      exact band_unique jet.pt b .pT_20_25
        (bandFills_substructure env m_nJet jet _ _ f hf b hb) hin

theorem substructure_one_band_witness :
    (({ hist := ._h_R04_z_sj_20_25, x := 2 / 5 } : Fill) ∈ r04JetFills env0 0 (r04Jet 22)
      ∧ ∀ f ∈ r04JetFills env0 0 (r04Jet 22), ∀ b : Band,
          f.hist.substructureBand = some b → b = .pT_20_25)
    ∧ (({ hist := ._h_R04_z_sj_30_40, x := 2 / 5 } : Fill)
          ∈ bandFills env0 0 (r04Jet 35) (1 / 5) (2 / 5)
      ∧ ({ hist := ._h_R04_theta_sj_30_40, x := 1 / 5 } : Fill)
          ∈ bandFills env0 0 (r04Jet 35) (1 / 5) (2 / 5))
    ∧ (({ hist := ._h_R04_z_sj_25_30, x := 2 / 5 } : Fill)
          ∈ bandFills env0 0 (r04Jet 27) (1 / 5) (2 / 5)
      ∧ ({ hist := ._h_R04_theta_sj_25_30, x := 1 / 5 } : Fill)
          ∈ bandFills env0 0 (r04Jet 27) (1 / 5) (2 / 5)) :=
  ⟨(substructure_one_band env0 0 (r04Jet 22)).2.2.2
      { pt := 12, eta := 0, constituents := (r04Jet 22).constituents }
      { pt := 8, eta := 0, constituents := [] } []
      (by norm_num [r04Jet]) rfl rfl rfl rfl,
   ⟨((substructure_one_band env0 0 (r04Jet 35)).2.1 (1 / 5) (2 / 5) .pT_30_40
      (by norm_num [r04Jet, Band.lo, Band.hi])).1,
    ((substructure_one_band env0 0 (r04Jet 35)).2.1 (1 / 5) (2 / 5) .pT_30_40
      (by norm_num [r04Jet, Band.lo, Band.hi])).2.1⟩,
   ⟨((substructure_one_band env0 0 (r04Jet 27)).2.1 (1 / 5) (2 / 5) .pT_25_30
      (by norm_num [r04Jet, Band.lo, Band.hi])).1,
    ((substructure_one_band env0 0 (r04Jet 27)).2.1 (1 / 5) (2 / 5) .pT_25_30
      (by norm_num [r04Jet, Band.lo, Band.hi])).2.1⟩⟩

end EMJetVal

namespace HCalCalibTree

/-! ### Azimuthal neighbours -/

/-- C13: for every phi bin in [0, 64) the neighbour indices computed by conditional add and
subtract are the modular ones, up = (iphi + 1) mod 64 and down = (iphi - 1) mod 64
= (iphi + 63) mod 64; both lie in [0, 64), bin 63 has up = 0 and bin 0 has down = 63. -/
theorem neighbour_indices_modular (iphi : Int) (h0 : 0 ≤ iphi) (h1 : iphi < 64) :
    up iphi = (iphi + 1) % 64 ∧ down iphi = (iphi - 1) % 64 ∧ down iphi = (iphi + 63) % 64
    ∧ (0 ≤ up iphi ∧ up iphi < 64) ∧ (0 ≤ down iphi ∧ down iphi < 64)
    ∧ (iphi = 63 → up iphi = 0) ∧ (iphi = 0 → down iphi = 63) := by
  have hu := up_eq_mod iphi h0 h1
  have hd := down_eq_mod iphi h0 h1
  refine ⟨hu, hd, ?_, ⟨?_, ?_⟩, ⟨?_, ?_⟩, ?_, ?_⟩
  · rw [hd]; omega
  · rw [hu]; omega
  · rw [hu]; omega
  · rw [hd]; omega
  · rw [hd]; omega
  · intro h; rw [hu, h]; rfl
  · intro h; rw [hd, h]; rfl

theorem neighbour_indices_modular_witness : up 63 = 0 ∧ down 0 = 63 :=
  ⟨(neighbour_indices_modular 63 (by decide) (by decide)).2.2.2.2.2.1 rfl,
   (neighbour_indices_modular 0 (by decide) (by decide)).2.2.2.2.2.2 rfl⟩

end HCalCalibTree

namespace EMJetVal

/-! ### The sub-jet momentum fraction -/

/-- C12: the sub-jet momentum fraction handed to the band classification is
pT2 / (pT2 + pT1) for the leading and second-leading radius-0.1 sub-jets; whenever
0 <= pT2 <= pT1 and pT1 > 0 it lies in [0, 1/2], and pT1 = 12, pT2 = 8 give 2/5. -/
theorem z_sj_range (env : External) (m_nJet : Int) (jet sj1 sj2 : ClusteredJet)
    (rest : List ClusteredJet) :
    z_sj sj1 sj2 = sj2.pt / (sj2.pt + sj1.pt)
    ∧ (|jet.eta| ≤ 0.6 → env.antikt_R01 jet.constituents = sj1 :: sj2 :: rest →
        r04JetFills env m_nJet jet
          = bandFills env m_nJet jet (env.delta_R sj1 sj2) (sj2.pt / (sj2.pt + sj1.pt)))
    ∧ (0 ≤ sj2.pt → sj2.pt ≤ sj1.pt → 0 < sj1.pt →
        0 ≤ z_sj sj1 sj2 ∧ z_sj sj1 sj2 ≤ 1 / 2)
    ∧ (sj1.pt = 12 → sj2.pt = 8 → z_sj sj1 sj2 = 2 / 5) := by
  refine ⟨rfl, fun heta hsub => r04JetFills_two_subjets env m_nJet jet sj1 sj2 rest heta hsub,
    ?_, ?_⟩
  · intro h2 h21 h1
    have hpos : 0 < sj2.pt + sj1.pt := by linarith
    unfold z_sj
    constructor
    · exact div_nonneg h2 hpos.le
    · rw [div_le_iff₀ hpos]; linarith
  · intro h1 h2
    unfold z_sj
    rw [h1, h2]; norm_num

theorem z_sj_range_witness :
    (0 ≤ z_sj { pt := 12, eta := 0, constituents := [] } { pt := 8, eta := 0, constituents := [] }
      ∧ z_sj { pt := 12, eta := 0, constituents := [] } { pt := 8, eta := 0, constituents := [] }
          ≤ 1 / 2)
    ∧ z_sj { pt := 12, eta := 0, constituents := [] } { pt := 8, eta := 0, constituents := [] }
        = 2 / 5
    ∧ r04JetFills env0 0 (r04Jet 22)
        = bandFills env0 0 (r04Jet 22) (1 / 5) ((8 : ℚ) / (8 + 12)) :=
  ⟨(z_sj_range env0 0 (r04Jet 22) { pt := 12, eta := 0, constituents := [] }
      { pt := 8, eta := 0, constituents := [] } []).2.2.1
      (by norm_num) (by norm_num) (by norm_num),
   (z_sj_range env0 0 (r04Jet 22) { pt := 12, eta := 0, constituents := [] }
      { pt := 8, eta := 0, constituents := [] } []).2.2.2 rfl rfl,
   (z_sj_range env0 0 (r04Jet 22) { pt := 12, eta := 0, constituents := (r04Jet 22).constituents }
      { pt := 8, eta := 0, constituents := [] } []).2.1 (by norm_num [r04Jet]) rfl⟩

end EMJetVal

namespace EMJetVal

/-! ### The constituent loop -/

theorem hadronicStep_logs (env : External) (ev : EventInputs) (towers : TowerInfoContainer)
    (geom : RawTowerGeomContainer) (layer : Nat) (l : Locals) (channel : Nat) :
    (hadronicStep env ev towers geom layer l channel).clustSeq_R04 = l.clustSeq_R04
    ∧ (hadronicStep env ev towers geom layer l channel).fills = l.fills := by
  unfold hadronicStep
  cases towers.get_tower_at_channel channel <;> exact ⟨rfl, rfl⟩

/-- What one constituent adds to the log of radius-0.4 clustering inputs and to the fills:
nothing unless it is an EM-tagged constituent with a tower, and then the singleton list of
its four-momentum and the fills of the jets clustered from that list. -/
theorem compStep_logs (env : External) (ev : EventInputs) (l : Locals) (comp : Nat × Nat) :
    (compStep env ev l comp).clustSeq_R04
        = l.clustSeq_R04 ++ (emInput env ev comp).toList.map (fun p => [p])
    ∧ (compStep env ev l comp).fills
        = l.fills ++ (emInput env ev comp).toList.flatMap
            (fun p => (env.antikt_R04 [p]).flatMap (r04JetFills env ev.m_nJet)) := by
  unfold compStep emInput
  dsimp only
  by_cases h1 : comp.1 = 15 ∨ comp.1 = 30
  · have hem : ¬ (comp.1 = 14 ∨ comp.1 = 29) := by omega
    rw [if_pos h1, if_neg hem]
    obtain ⟨a, b⟩ := hadronicStep_logs env ev ev.towersIH3 ev.tower_geom 1
      { l with particles := [], nconst := l.nconst + 1 } comp.2
    rw [a, b]
    simp
  · rw [if_neg h1]
    by_cases h2 : comp.1 = 16 ∨ comp.1 = 31
    · have hem : ¬ (comp.1 = 14 ∨ comp.1 = 29) := by omega
      rw [if_pos h2, if_neg hem]
      obtain ⟨a, b⟩ := hadronicStep_logs env ev ev.towersOH3 ev.tower_geomOH 2
        { l with particles := [], nconst := l.nconst + 1 } comp.2
      rw [a, b]
      simp
    · rw [if_neg h2]
      by_cases h3 : comp.1 = 14 ∨ comp.1 = 29
      · rw [if_pos h3, if_pos h3]
        unfold emStep
        cases ev.towersEM3.get_tower_at_channel comp.2 <;> simp
      · rw [if_neg h3, if_neg h3]
        simp

theorem compFold_logs (env : External) (ev : EventInputs) (comps : List (Nat × Nat)) :
    ∀ l : Locals,
      (comps.foldl (compStep env ev) l).clustSeq_R04
          = l.clustSeq_R04 ++ (comps.filterMap (emInput env ev)).map (fun p => [p])
      ∧ (comps.foldl (compStep env ev) l).fills
          = l.fills ++ (comps.filterMap (emInput env ev)).flatMap
              (fun p => (env.antikt_R04 [p]).flatMap (r04JetFills env ev.m_nJet)) := by
  induction comps with
  | nil => intro l; simp
  | cons c cs ih =>
    intro l
    obtain ⟨i1, i2⟩ := ih (compStep env ev l c)
    obtain ⟨s1, s2⟩ := compStep_logs env ev l c
    rw [List.foldl_cons, i1, i2, s1, s2]
    cases h : emInput env ev c <;> simp [List.filterMap_cons, h]

/-- The two logs of the constituent loop of one jet. -/
theorem compLoop_logs (env : External) (ev : EventInputs) (jet : Jet) :
    (compLoop env ev jet).clustSeq_R04 = (emInputs env ev jet).map (fun p => [p])
    ∧ (compLoop env ev jet).fills
        = (emInputs env ev jet).flatMap
            (fun p => (env.antikt_R04 [p]).flatMap (r04JetFills env ev.m_nJet)) := by
  obtain ⟨a, b⟩ := compFold_logs env ev jet.comp Locals.init
  unfold compLoop emInputs
  rw [a, b]
  simp [Locals.init]

end EMJetVal

namespace EMJetVal

/-! ### The jet loop: what it leaves alone and what it logs -/

theorem jetStep_frame (env : External) (ev : EventInputs) (s : State) (jet : Jet) :
    (jetStep env ev s jet).m_T = s.m_T ∧ (jetStep env ev s jet).m_nJet = s.m_nJet
    ∧ (jetStep env ev s jet).m_doUnsubJet = s.m_doUnsubJet
    ∧ (jetStep env ev s jet).m_event = s.m_event
    ∧ (jetStep env ev s jet).m_centrality = s.m_centrality
    ∧ (jetStep env ev s jet).m_impactparam = s.m_impactparam := by
  unfold jetStep
  split
  · exact ⟨rfl, rfl, rfl, rfl, rfl, rfl⟩
  · dsimp only
    split <;> exact ⟨rfl, rfl, rfl, rfl, rfl, rfl⟩

theorem jetStep_logs (env : External) (ev : EventInputs) (s : State) (jet : Jet) :
    (jetStep env ev s jet).fills
        = s.fills ++ (if jet.pt ≥ 1 then
            (if s.m_doUnsubJet = true then (compLoop env ev jet).fills else []) else [])
    ∧ (jetStep env ev s jet).clustSeq_R04
        = s.clustSeq_R04 ++ (if jet.pt ≥ 1 then
            (if s.m_doUnsubJet = true then (compLoop env ev jet).clustSeq_R04 else [])
            else []) := by
  unfold jetStep
  by_cases h : jet.pt < 1
  · have h2 : ¬ jet.pt ≥ 1 := not_le.mpr h
    simp [h, h2]
  · have h2 : jet.pt ≥ 1 := not_lt.mp h
    rw [if_neg h, if_pos h2, if_pos h2]
    dsimp only
    split <;> simp

theorem jetLoop_frame (env : External) (ev : EventInputs) (jets : List Jet) :
    ∀ s : State,
      (jets.foldl (jetStep env ev) s).m_T = s.m_T
      ∧ (jets.foldl (jetStep env ev) s).m_nJet = s.m_nJet
      ∧ (jets.foldl (jetStep env ev) s).m_doUnsubJet = s.m_doUnsubJet
      ∧ (jets.foldl (jetStep env ev) s).m_event = s.m_event
      ∧ (jets.foldl (jetStep env ev) s).m_centrality = s.m_centrality
      ∧ (jets.foldl (jetStep env ev) s).m_impactparam = s.m_impactparam := by
  induction jets with
  | nil => intro s; exact ⟨rfl, rfl, rfl, rfl, rfl, rfl⟩
  | cons jet jets ih =>
    intro s
    obtain ⟨a1, a2, a3, a4, a5, a6⟩ := ih (jetStep env ev s jet)
    obtain ⟨b1, b2, b3, b4, b5, b6⟩ := jetStep_frame env ev s jet
    rw [List.foldl_cons, a1, a2, a3, a4, a5, a6, b1, b2, b3, b4, b5, b6]
    exact ⟨rfl, rfl, rfl, rfl, rfl, rfl⟩

theorem jetLoop_logs (env : External) (ev : EventInputs) (jets : List Jet) :
    ∀ s : State,
      (jets.foldl (jetStep env ev) s).fills
          = s.fills ++ (acceptedJets jets).flatMap
              (fun j => if s.m_doUnsubJet = true then (compLoop env ev j).fills else [])
      ∧ (jets.foldl (jetStep env ev) s).clustSeq_R04
          = s.clustSeq_R04 ++ (acceptedJets jets).flatMap
              (fun j => if s.m_doUnsubJet = true then (compLoop env ev j).clustSeq_R04
                else []) := by
  unfold acceptedJets
  induction jets with
  | nil => intro s; simp
  | cons jet jets ih =>
    intro s
    obtain ⟨i1, i2⟩ := ih (jetStep env ev s jet)
    obtain ⟨j1, j2⟩ := jetStep_logs env ev s jet
    have hflag := (jetStep_frame env ev s jet).2.2.1
    rw [List.foldl_cons, i1, i2, j1, j2, hflag]
    by_cases h : jet.pt ≥ 1 <;> simp [List.filter_cons, h]

/-- The body of a found event, written with the inputs it hands to the jet loop: the jet
count is set to 0 before the loop and the row is filled after it. -/
theorem eventBody_unfold (env : External) (jets : List Jet) (cent_node : CentralityInfo)
    (towersEM3 towersIH3 towersOH3 : TowerInfoContainer)
    (tower_geom tower_geomOH : RawTowerGeomContainer) (background : TowerBackground)
    (s : State) :
    eventBody env jets cent_node towersEM3 towersIH3 towersOH3 tower_geom tower_geomOH
        background s
      = { jets.foldl
            (jetStep env (eventInputs s towersEM3 towersIH3 towersOH3 tower_geom tower_geomOH
              background))
            { s with m_centrality := cent_node.get_centile,
                     m_impactparam := cent_node.get_quantity, m_nJet := 0 } with
          m_T := (jets.foldl
            (jetStep env (eventInputs s towersEM3 towersIH3 towersOH3 tower_geom tower_geomOH
              background))
            { s with m_centrality := cent_node.get_centile,
                     m_impactparam := cent_node.get_quantity, m_nJet := 0 }).m_T
            ++ [treeRow (jets.foldl
              (jetStep env (eventInputs s towersEM3 towersIH3 towersOH3 tower_geom
                tower_geomOH background))
              { s with m_centrality := cent_node.get_centile,
                       m_impactparam := cent_node.get_quantity, m_nJet := 0 })] } := rfl

/-- The scalar members, the tree and the logs after the body of a found event. -/
theorem eventBody_spec (env : External) (jets : List Jet) (cent_node : CentralityInfo)
    (towersEM3 towersIH3 towersOH3 : TowerInfoContainer)
    (tower_geom tower_geomOH : RawTowerGeomContainer) (background : TowerBackground)
    (s : State) :
    (eventBody env jets cent_node towersEM3 towersIH3 towersOH3 tower_geom tower_geomOH
        background s).m_nJet = 0
    ∧ (eventBody env jets cent_node towersEM3 towersIH3 towersOH3 tower_geom tower_geomOH
        background s).m_T
      = s.m_T ++ [{ m_event := s.m_event, nJet := 0, cent := cent_node.get_centile,
                    b := cent_node.get_quantity,
                    id := s.m_id ++ (acceptedJets jets).map Jet.id,
                    nComponent := s.m_nComponent
                      ++ (acceptedJets jets).map (fun j => j.comp.length),
                    eta := s.m_eta ++ (acceptedJets jets).map Jet.eta,
                    phi := s.m_phi ++ (acceptedJets jets).map Jet.phi,
                    e := s.m_e ++ (acceptedJets jets).map Jet.e,
                    pt := s.m_pt ++ (acceptedJets jets).map Jet.pt }]
    ∧ (eventBody env jets cent_node towersEM3 towersIH3 towersOH3 tower_geom tower_geomOH
        background s).fills
      = s.fills ++ (acceptedJets jets).flatMap
          (fun j => if s.m_doUnsubJet = true then
            (compLoop env (eventInputs s towersEM3 towersIH3 towersOH3 tower_geom tower_geomOH
              background) j).fills else [])
    ∧ (eventBody env jets cent_node towersEM3 towersIH3 towersOH3 tower_geom tower_geomOH
        background s).clustSeq_R04
      = s.clustSeq_R04 ++ (acceptedJets jets).flatMap
          (fun j => if s.m_doUnsubJet = true then
            (compLoop env (eventInputs s towersEM3 towersIH3 towersOH3 tower_geom tower_geomOH
              background) j).clustSeq_R04 else []) := by
  rw [eventBody_unfold]
  dsimp only
  obtain ⟨f1, f2, _, f4, f5, f6⟩ := jetLoop_frame env
    (eventInputs s towersEM3 towersIH3 towersOH3 tower_geom tower_geomOH background) jets
    { s with m_centrality := cent_node.get_centile,
             m_impactparam := cent_node.get_quantity, m_nJet := 0 }
  obtain ⟨l1, l2⟩ := jetLoop_logs env
    (eventInputs s towersEM3 towersIH3 towersOH3 tower_geom tower_geomOH background) jets
    { s with m_centrality := cent_node.get_centile,
             m_impactparam := cent_node.get_quantity, m_nJet := 0 }
  obtain ⟨q1, q2, q3, q4, q5, q6⟩ := jetLoop_sequences env
    (eventInputs s towersEM3 towersIH3 towersOH3 tower_geom tower_geomOH background) jets
    { s with m_centrality := cent_node.get_centile,
             m_impactparam := cent_node.get_quantity, m_nJet := 0 }
  refine ⟨f2, ?_, l1, l2⟩
  unfold treeRow
  rw [f1, f2, f4, f5, f6, q1, q2, q3, q4, q5, q6]
  rfl

end EMJetVal

namespace EMJetVal

/-! ### The three ways a call ends -/

/-- A call of `process_event` ends in `exit(-1)` with only the event counter changed, or
returns EVENT_OK with only the event counter changed, or returns EVENT_OK after the body of
a found event. -/
theorem process_event_cases (env : External) (top : TopNode) (s : State) :
    process_event env top s = .exited (-1) { s with m_event := s.m_event + 1 }
    ∨ process_event env top s = .returned EVENT_OK { s with m_event := s.m_event + 1 }
    ∨ ∃ jets cent_node towersEM3 towersIH3 towersOH3 tower_geom tower_geomOH background,
        top.jets = some jets ∧ top.background = some background
        ∧ process_event env top s = .returned EVENT_OK
            (eventBody env jets cent_node towersEM3 towersIH3 towersOH3 tower_geom
              tower_geomOH background { s with m_event := s.m_event + 1 }) := by
  obtain ⟨jets, jetsMC, seedjetsraw, seedjetssub, cent_node, towersEM3, towersIH3, towersOH3,
    tower_geom, tower_geomOH, background⟩ := top
  unfold process_event
  cases jets with
  | none => exact Or.inl rfl
  | some jets =>
    dsimp only
    by_cases h1 : jetsMC.isNone = true ∧ s.m_doTruthJets = true
    · rw [if_pos h1]; exact Or.inl rfl
    · rw [if_neg h1]
      by_cases h2 : seedjetsraw.isNone = true ∧ s.m_doSeeds = true
      · rw [if_pos h2]; exact Or.inl rfl
      · rw [if_neg h2]
        by_cases h3 : seedjetssub.isNone = true ∧ s.m_doSeeds = true
        · rw [if_pos h3]; exact Or.inl rfl
        · rw [if_neg h3]
          cases cent_node with
          | none => exact Or.inl rfl
          | some cent_node =>
            cases towersEM3 with
            | none => exact Or.inl rfl
            | some towersEM3 =>
              cases towersIH3 with
              | none => exact Or.inl rfl
              | some towersIH3 =>
                cases towersOH3 with
                | none => exact Or.inl rfl
                | some towersOH3 =>
                  cases tower_geom with
                  | none => exact Or.inl rfl
                  | some tower_geom =>
                    cases tower_geomOH with
                    | none => exact Or.inl rfl
                    | some tower_geomOH =>
                      cases background with
                      | none => exact Or.inr (Or.inl rfl)
                      | some background =>
                        exact Or.inr (Or.inr ⟨jets, cent_node, towersEM3, towersIH3,
                          towersOH3, tower_geom, tower_geomOH, background, rfl, rfl, rfl⟩)

end EMJetVal

namespace EMJetVal

/-! ### The length invariant of the per-jet sequences -/

theorem eventBody_lengths (env : External) (jets : List Jet) (cent_node : CentralityInfo)
    (towersEM3 towersIH3 towersOH3 : TowerInfoContainer)
    (tower_geom tower_geomOH : RawTowerGeomContainer) (background : TowerBackground)
    (s : State) (h : seqLengthsEqual s) :
    seqLengthsEqual (eventBody env jets cent_node towersEM3 towersIH3 towersOH3 tower_geom
      tower_geomOH background s) := by
  obtain ⟨e1, e2, e3, e4, e5, e6⟩ := eventBody_sequences env jets cent_node towersEM3
    towersIH3 towersOH3 tower_geom tower_geomOH background s
  obtain ⟨h1, h2, h3, h4, h5⟩ := h
  unfold seqLengthsEqual
  rw [e1, e2, e3, e4, e5, e6]
  simp only [List.length_append, List.length_map]
  omega

theorem acceptedJets_eq_nil (jets : List Jet) (h : ∀ j ∈ jets, j.pt < 1) :
    acceptedJets jets = [] := by
  unfold acceptedJets
  rw [List.filter_eq_nil_iff]
  intro j hj
  have := h j hj
  simp only [ge_iff_le, decide_eq_true_eq, not_le]
  exact this

/-- C11: the six per-jet sequences have one length in the constructed state; every
`process_event` call keeps them of one length, whatever way it ends, and every tree row it
writes has its six sequences of one length; an event whose jets all fail the noise cut,
entered with empty sequences, writes a row whose six sequences are empty; and `ResetEvent`
leaves all six empty. -/
theorem seqLengthsEqual_invariant :
    (∀ doTruthJets doSeeds doUnsubJet : Bool,
      seqLengthsEqual (constructed doTruthJets doSeeds doUnsubJet))
    ∧ (∀ (env : External) (top : TopNode) (s : State), seqLengthsEqual s →
        seqLengthsEqual (process_event env top s).state
        ∧ ∀ r ∈ (process_event env top s).state.m_T, r ∈ s.m_T ∨ rowLengthsEqual r)
    ∧ (∀ (env : External) (top : TopNode) (s : State) (jets : List Jet),
        top.jets = some jets → ¬ mandatoryMissing s top → top.background ≠ none →
        seqEmpty s → (∀ j ∈ jets, j.pt < 1) →
        seqEmpty (process_event env top s).state
        ∧ ∃ r : TreeRow, (process_event env top s).state.m_T = s.m_T ++ [r]
            ∧ r.id = [] ∧ r.nComponent = [] ∧ r.eta = [] ∧ r.phi = [] ∧ r.e = [] ∧ r.pt = [])
    ∧ (∀ s : State, seqEmpty (ResetEvent s).2 ∧ seqLengthsEqual (ResetEvent s).2) := by
  refine ⟨fun _ _ _ => ⟨rfl, rfl, rfl, rfl, rfl⟩, ?_, ?_,
    fun s => ⟨⟨rfl, rfl, rfl, rfl, rfl, rfl⟩, ⟨rfl, rfl, rfl, rfl, rfl⟩⟩⟩
  · intro env top s h
    rcases process_event_cases env top s with hc | hc | ⟨jets, cent_node, towersEM3, towersIH3,
      towersOH3, tower_geom, tower_geomOH, background, _, _, hc⟩
    · rw [hc]
      exact ⟨h, fun r hr => Or.inl hr⟩
    · rw [hc]
      exact ⟨h, fun r hr => Or.inl hr⟩
    · rw [hc]
      simp only [Outcome.state]
      have h0 : seqLengthsEqual { s with m_event := s.m_event + 1 } := h
      refine ⟨eventBody_lengths env jets cent_node towersEM3 towersIH3 towersOH3 tower_geom
        tower_geomOH background _ h0, ?_⟩
      intro r hr
      rw [(eventBody_spec env jets cent_node towersEM3 towersIH3 towersOH3 tower_geom
        tower_geomOH background _).2.1] at hr
      rcases List.mem_append.mp hr with hr | hr
      · exact Or.inl hr
      · right
        rw [List.mem_singleton.mp hr]
        obtain ⟨h1, h2, h3, h4, h5⟩ := h
        unfold rowLengthsEqual
        simp only [List.length_append, List.length_map]
        omega
  · intro env top s jets hjets hmand hbg hempty hnoise
    obtain ⟨background, hbg2⟩ := Option.ne_none_iff_exists'.mp hbg
    obtain ⟨cent_node, towersEM3, towersIH3, towersOH3, tower_geom, tower_geomOH, hrun⟩ :=
      process_event_present env top s jets background hjets hmand hbg2
    obtain ⟨e1, e2, e3, e4, e5, e6⟩ := eventBody_sequences env jets cent_node towersEM3
      towersIH3 towersOH3 tower_geom tower_geomOH background { s with m_event := s.m_event + 1 }
    have hacc : List.filter (fun j => decide (j.pt ≥ 1)) jets = [] := acceptedJets_eq_nil jets hnoise
    have hacc2 := acceptedJets_eq_nil jets hnoise
    obtain ⟨z1, z2, z3, z4, z5, z6⟩ := hempty
    rw [hrun]
    simp only [Outcome.state]
    refine ⟨?_, _, (eventBody_spec env jets cent_node towersEM3 towersIH3 towersOH3 tower_geom
      tower_geomOH background _).2.1, ?_⟩
    · unfold seqEmpty
      rw [e1, e2, e3, e4, e5, e6, hacc]
      simp [z1, z2, z3, z4, z5, z6]
    · simp [hacc2, z1, z2, z3, z4, z5, z6]

end EMJetVal

namespace EMJetVal

/-! ### The increments of the jet totals -/

/-- The increments of a hadronic constituent with a tower are the standard decomposition
of the specification, with the ring baseline of the given layer. -/
theorem hadronicStep_totals (env : External) (ev : EventInputs) (towers : TowerInfoContainer)
    (geom : RawTowerGeomContainer) (layer : Nat) (l : Locals) (channel : Nat) (energy : ℚ)
    (h : towers.get_tower_at_channel channel = some energy) :
    (hadronicStep env ev towers geom layer l channel).totalPx
        = l.totalPx + (specFourMomentum env ev.background_v2 ev.background_Psi2 energy
            (ev.background.get_UE layer (towers.getTowerEtaBin channel))
            (geom.get_phi (towers.getTowerEtaBin channel) (towers.getTowerPhiBin channel))
            (geom.get_eta (towers.getTowerEtaBin channel) (towers.getTowerPhiBin channel))).px
    ∧ (hadronicStep env ev towers geom layer l channel).totalPy
        = l.totalPy + (specFourMomentum env ev.background_v2 ev.background_Psi2 energy
            (ev.background.get_UE layer (towers.getTowerEtaBin channel))
            (geom.get_phi (towers.getTowerEtaBin channel) (towers.getTowerPhiBin channel))
            (geom.get_eta (towers.getTowerEtaBin channel) (towers.getTowerPhiBin channel))).py
    ∧ (hadronicStep env ev towers geom layer l channel).totalPz
        = l.totalPz + (specFourMomentum env ev.background_v2 ev.background_Psi2 energy
            (ev.background.get_UE layer (towers.getTowerEtaBin channel))
            (geom.get_phi (towers.getTowerEtaBin channel) (towers.getTowerPhiBin channel))
            (geom.get_eta (towers.getTowerEtaBin channel) (towers.getTowerPhiBin channel))).pz
    ∧ (hadronicStep env ev towers geom layer l channel).totalE
        = l.totalE + (specFourMomentum env ev.background_v2 ev.background_Psi2 energy
            (ev.background.get_UE layer (towers.getTowerEtaBin channel))
            (geom.get_phi (towers.getTowerEtaBin channel) (towers.getTowerPhiBin channel))
            (geom.get_eta (towers.getTowerEtaBin channel) (towers.getTowerPhiBin channel))).E := by
  unfold hadronicStep specFourMomentum modulatedUE
  rw [h]
  exact ⟨rfl, rfl, rfl, rfl⟩

/-- The four-momentum of an EM constituent agrees with the standard decomposition in px, py
and E; its pz is sinh(eta) alone. -/
theorem emParticle_components (env : External) (ev : EventInputs) (energy : ℚ) (channel : Nat) :
    (emParticle env ev energy channel).px
        = (specFourMomentum env ev.background_v2 ev.background_Psi2 energy
            (ev.background.get_UE 0 (ev.towersEM3.getTowerEtaBin channel))
            (ev.tower_geom.get_phi (ev.towersEM3.getTowerEtaBin channel)
              (ev.towersEM3.getTowerPhiBin channel))
            (ev.tower_geom.get_eta (ev.towersEM3.getTowerEtaBin channel)
              (ev.towersEM3.getTowerPhiBin channel))).px
    ∧ (emParticle env ev energy channel).py
        = (specFourMomentum env ev.background_v2 ev.background_Psi2 energy
            (ev.background.get_UE 0 (ev.towersEM3.getTowerEtaBin channel))
            (ev.tower_geom.get_phi (ev.towersEM3.getTowerEtaBin channel)
              (ev.towersEM3.getTowerPhiBin channel))
            (ev.tower_geom.get_eta (ev.towersEM3.getTowerEtaBin channel)
              (ev.towersEM3.getTowerPhiBin channel))).py
    ∧ (emParticle env ev energy channel).E
        = (specFourMomentum env ev.background_v2 ev.background_Psi2 energy
            (ev.background.get_UE 0 (ev.towersEM3.getTowerEtaBin channel))
            (ev.tower_geom.get_phi (ev.towersEM3.getTowerEtaBin channel)
              (ev.towersEM3.getTowerPhiBin channel))
            (ev.tower_geom.get_eta (ev.towersEM3.getTowerEtaBin channel)
              (ev.towersEM3.getTowerPhiBin channel))).E
    ∧ (emParticle env ev energy channel).pz
        = env.sinh (ev.tower_geom.get_eta (ev.towersEM3.getTowerEtaBin channel)
            (ev.towersEM3.getTowerPhiBin channel)) :=
  ⟨rfl, rfl, rfl, rfl⟩

/-- C14 (the code at the failing input): a tower of energy 5 at phi = 0 and eta = 7/10, where
cosh = 5/4 and sinh = 3/4, has pt = 4 and the standard decomposition (4, 0, 3, 7) with the EM
ring baseline.  Tagged inner or outer hadronic (15, 16) it adds pz = 3 to the jet total;
tagged EM (14) it adds pz = 3/4, and the four-momentum pushed to the re-clustering list is
(4, 0, 3/4, 7). -/
theorem em_constituent_pz :
    specFourMomentum env1 ev1.background_v2 ev1.background_Psi2 5 (ev1.background.get_UE 0 0) 0
        (7 / 10) = { px := 4, py := 0, pz := 3, E := 7 }
    ∧ (compStep env1 ev1 Locals.init (15, 0)).totalPz = 3
    ∧ (compStep env1 ev1 Locals.init (16, 0)).totalPz = 3
    ∧ (compStep env1 ev1 Locals.init (14, 0)).totalPz = 3 / 4
    ∧ (compStep env1 ev1 Locals.init (14, 0)).particles
        = [{ px := 4, py := 0, pz := 3 / 4, E := 7 }] := by
  refine ⟨?_, ?_, ?_, ?_, ?_⟩
  · norm_num [specFourMomentum, env1, ev1, background1]
  · norm_num [compStep, hadronicStep, modulatedUE, env1, ev1, towers5, geom1, background1,
      Locals.init]
  · norm_num [compStep, hadronicStep, modulatedUE, env1, ev1, towers5, geom1, background1,
      Locals.init]
  · norm_num [compStep, emStep, emParticle, modulatedUE, env1, ev1, towers5, geom1, background1,
      Locals.init]
  · norm_num [compStep, emStep, emParticle, modulatedUE, env1, ev1, towers5, geom1, background1,
      Locals.init]

end EMJetVal

namespace EMJetVal

/-! ### One clustering call per EM constituent -/

theorem process_event_all_found (env : External) (s : State) (jets jetsMC seedjetsraw
    seedjetssub : List Jet) (cent_node : CentralityInfo)
    (towersEM3 towersIH3 towersOH3 : TowerInfoContainer)
    (tower_geom tower_geomOH : RawTowerGeomContainer) (background : TowerBackground) :
    process_event env
        { jets := some jets, jetsMC := some jetsMC, seedjetsraw := some seedjetsraw,
          seedjetssub := some seedjetssub, cent_node := some cent_node,
          towersEM3 := some towersEM3, towersIH3 := some towersIH3,
          towersOH3 := some towersOH3, tower_geom := some tower_geom,
          tower_geomOH := some tower_geomOH, background := some background } s
      = .returned EVENT_OK
          (eventBody env jets cent_node towersEM3 towersIH3 towersOH3 tower_geom tower_geomOH
            background { s with m_event := s.m_event + 1 }) := by
  simp [process_event]

/-- A radius-0.4 jet whose radius-0.1 re-clustering gives fewer than two sub-jets is
skipped: it fills nothing. -/
theorem r04JetFills_skipped (env : External) (m_nJet : Int) (jet : ClusteredJet)
    (h : (env.antikt_R01 jet.constituents).length < 2) : r04JetFills env m_nJet jet = [] := by
  unfold r04JetFills
  split
  · rfl
  · split
    · rename_i sj1 sj2 rest heq
      rw [heq] at h
      simp only [List.length_cons] at h
      omega
    · rfl

/-- C15 (counterexample): with the EM tower collection all null, the jet of `topNullEM`,
whose one constituent is EM-tagged, causes no radius-0.4 clustering call at all; and the
clustering of `doublingEnv`, which never returns more jets than it is given particles but
reports two constituents for the jet made of one particle, leads to an entry in the z_sj
histogram of the 20-25 band. -/
theorem em_constituent_without_call :
    topNullEM.jets = some [jetOfComp [(14, 0)]]
    ∧ (process_event singletonEnv topNullEM (constructed false false true)).state.clustSeq_R04
        = []
    ∧ (∀ ps, (doublingEnv.antikt_R04 ps).length ≤ ps.length)
    ∧ (∀ ps, (doublingEnv.antikt_R01 ps).length ≤ ps.length)
    ∧ ({ hist := ._h_R04_z_sj_20_25, x := 2 / 5 } : Fill)
        ∈ (process_event doublingEnv topOneEM (constructed false false true)).state.fills := by
  refine ⟨rfl, ?_, ?_, ?_, ?_⟩
  · unfold topNullEM topOneEM
    rw [process_event_all_found]
    simp only [Outcome.state]
    rw [(eventBody_spec _ _ _ _ _ _ _ _ _ _).2.2.2]
    simp [compLoop_logs, emInputs, emInput, jetOfComp, nullTowers, constructed, acceptedJets,
      eventInputs]
  · intro ps
    cases ps <;> simp [doublingEnv]
  · intro ps
    rcases ps with _ | ⟨a, _ | ⟨b, rest⟩⟩ <;> simp [doublingEnv]
  · unfold topOneEM
    rw [process_event_all_found]
    simp only [Outcome.state]
    rw [(eventBody_spec _ _ _ _ _ _ _ _ _ _).2.2.1]
    simp [compLoop_logs, emInputs, emInput, jetOfComp, towers0, constructed, acceptedJets,
      eventInputs]
    generalize emParticle doublingEnv _ 1 0 = p
    refine ⟨{ pt := 22, eta := 0, constituents := [p, p] }, by simp [doublingEnv], ?_⟩
    rw [r04JetFills_two_subjets doublingEnv 0 { pt := 22, eta := 0, constituents := [p, p] }
      { pt := 12, eta := 0, constituents := [p] }
      { pt := 8, eta := 0, constituents := [] } [] (by norm_num) rfl]
    have hz : z_sj { pt := 12, eta := 0, constituents := [p] }
        { pt := 8, eta := 0, constituents := [] } = 2 / 5 := by norm_num [z_sj]
    rw [hz]
    exact (bandFills_in_band doublingEnv 0 _ _ (2 / 5) .pT_20_25
      (by norm_num [Band.lo, Band.hi])).1

/-- C15 (amended): the re-clustering list is cleared at the start of every constituent
iteration, so the radius-0.4 clustering is called once per EM-tagged constituent whose tower
is found, each time with the one four-momentum of that constituent, and never per jet; and
when the radius-0.1 clustering returns no more jets than it is given particles and a
radius-0.4 jet has no more constituents than the clustering was given particles, every
radius-0.4 jet has fewer than two sub-jets and is skipped, so that `process_event` fills no
histogram at all. -/
theorem clustering_per_em_constituent (env : External) (top : TopNode) (s : State) :
    (∀ (ev : EventInputs) (jet : Jet),
        (compLoop env ev jet).clustSeq_R04 = (emInputs env ev jet).map (fun p => [p]))
    ∧ (∀ ps ∈ (process_event env top s).state.clustSeq_R04,
        ps ∈ s.clustSeq_R04 ∨ ps.length = 1)
    ∧ ((∀ ps, (env.antikt_R01 ps).length ≤ ps.length) →
        (∀ ps, ∀ j ∈ env.antikt_R04 ps, j.constituents.length ≤ ps.length) →
        (∀ (m_nJet : Int) (p : PseudoJet), ∀ j ∈ env.antikt_R04 [p],
            (env.antikt_R01 j.constituents).length < 2 ∧ r04JetFills env m_nJet j = [])
        ∧ (process_event env top s).state.fills = s.fills) := by
  refine ⟨fun ev jet => (compLoop_logs env ev jet).1, ?_, ?_⟩
  · intro ps hps
    rcases process_event_cases env top s with hc | hc | ⟨jets, cent_node, towersEM3, towersIH3,
      towersOH3, tower_geom, tower_geomOH, background, _, _, hc⟩
    · rw [hc] at hps; exact Or.inl hps
    · rw [hc] at hps; exact Or.inl hps
    · rw [hc] at hps
      simp only [Outcome.state] at hps
      rw [(eventBody_spec _ _ _ _ _ _ _ _ _ _).2.2.2] at hps
      rcases List.mem_append.mp hps with h | h
      · exact Or.inl h
      · right
        obtain ⟨j, _, hj⟩ := List.mem_flatMap.mp h
        split at hj
        · rw [(compLoop_logs env _ j).1] at hj
          obtain ⟨p, _, hp⟩ := List.mem_map.mp hj
          rw [← hp]; rfl
        · cases hj
  · intro h01 hconst
    have hskip : ∀ (m_nJet : Int) (p : PseudoJet), ∀ j ∈ env.antikt_R04 [p],
        (env.antikt_R01 j.constituents).length < 2 ∧ r04JetFills env m_nJet j = [] := by
      intro m_nJet p j hj
      have h1 : j.constituents.length ≤ 1 := hconst [p] j hj
      have h2 : (env.antikt_R01 j.constituents).length < 2 :=
        lt_of_le_of_lt (le_trans (h01 j.constituents) h1) (by decide)
      exact ⟨h2, r04JetFills_skipped env m_nJet j h2⟩
    refine ⟨hskip, ?_⟩
    rcases process_event_cases env top s with hc | hc | ⟨jets, cent_node, towersEM3, towersIH3,
      towersOH3, tower_geom, tower_geomOH, background, _, _, hc⟩
    · rw [hc]; rfl
    · rw [hc]; rfl
    · rw [hc]
      simp only [Outcome.state]
      rw [(eventBody_spec _ _ _ _ _ _ _ _ _ _).2.2.1]
      have hnil : ∀ (ev : EventInputs) (j : Jet), (compLoop env ev j).fills = [] := by
        intro ev j
        rw [(compLoop_logs env ev j).2, List.flatMap_eq_nil_iff]
        intro p _
        rw [List.flatMap_eq_nil_iff]
        intro cj hcj
        exact (hskip ev.m_nJet p cj hcj).2
      simp [hnil]

end EMJetVal

namespace EMJetVal

theorem seqLengthsEqual_invariant_witness :
    seqLengthsEqual (process_event env0 top0 (constructed false false true)).state
    ∧ seqEmpty (process_event env0 { top0 with jets := some noiseJets }
        (constructed false false true)).state :=
  ⟨(seqLengthsEqual_invariant.2.1 env0 top0 (constructed false false true)
      (by decide)).1,
   (seqLengthsEqual_invariant.2.2.1 env0 { top0 with jets := some noiseJets }
      (constructed false false true) noiseJets rfl (by decide) (by simp [top0])
      ⟨rfl, rfl, rfl, rfl, rfl, rfl⟩
      (by
        intro j hj
        simp only [noiseJets, List.mem_cons, List.mem_singleton, List.not_mem_nil,
          or_false] at hj
        rcases hj with rfl | rfl | rfl <;> norm_num)).1⟩

theorem clustering_per_em_constituent_witness :
    (∀ ps, (singletonEnv.antikt_R01 ps).length ≤ ps.length)
    ∧ (∀ ps, ∀ j ∈ singletonEnv.antikt_R04 ps, j.constituents.length ≤ ps.length)
    ∧ (process_event singletonEnv topOneEM (constructed false false true)).state.fills = [] := by
  have h1 : ∀ ps, (singletonEnv.antikt_R01 ps).length ≤ ps.length := by
    intro ps; simp [singletonEnv]
  have h2 : ∀ ps, ∀ j ∈ singletonEnv.antikt_R04 ps, j.constituents.length ≤ ps.length := by
    intro ps j hj
    simp only [singletonEnv, List.mem_map] at hj
    obtain ⟨p, hp, rfl⟩ := hj
    exact List.length_pos_of_mem hp
  exact ⟨h1, h2,
    ((clustering_per_em_constituent singletonEnv topOneEM (constructed false false true)).2.2
      h1 h2).2⟩

/-! ### The scalar jet count -/

/-- C16: in every event that reaches the jet loop the member `m_nJet` is 0 after the call,
the tree row written has nJet = 0 while its per-jet sequences grow by the number of jets
with pt >= 1, the band classification is run with jet count 0 so that its closing
`_hmult_R04` fill has value 0, and with at least one accepted jet the row's nJet differs
from the length of its sequences. -/
theorem nJet_is_zero (env : External) (top : TopNode) (s : State) (jets : List Jet)
    (hjets : top.jets = some jets) (hmand : ¬ mandatoryMissing s top)
    (hbg : top.background ≠ none) :
    (process_event env top s).state.m_nJet = 0
    ∧ (∃ r : TreeRow, (process_event env top s).state.m_T = s.m_T ++ [r] ∧ r.nJet = 0
        ∧ r.id.length = s.m_id.length + (acceptedJets jets).length)
    ∧ (∃ ev : EventInputs, ev.m_nJet = 0
        ∧ (process_event env top s).state.fills
          = s.fills ++ (acceptedJets jets).flatMap (fun j =>
              if s.m_doUnsubJet = true then
                (emInputs env ev j).flatMap
                  (fun p => (env.antikt_R04 [p]).flatMap (r04JetFills env 0))
              else []))
    ∧ (∀ (jet : ClusteredJet) (theta_sj z_sj : ℚ),
        (block_15_25 env jet theta_sj z_sj).2 = false →
        (block_25_30 env jet theta_sj z_sj).2 = false →
        (block_30_40 env jet theta_sj z_sj).2 = false →
        bandFills env 0 jet theta_sj z_sj
          = (block_15_25 env jet theta_sj z_sj).1 ++ (block_25_30 env jet theta_sj z_sj).1
            ++ (block_30_40 env jet theta_sj z_sj).1 ++ [{ hist := ._hmult_R04, x := 0 }])
    ∧ (acceptedJets jets ≠ [] →
        ∃ r : TreeRow, (process_event env top s).state.m_T = s.m_T ++ [r]
          ∧ r.nJet ≠ (r.id.length : Int)) := by
  obtain ⟨background, hbg2⟩ := Option.ne_none_iff_exists'.mp hbg
  obtain ⟨cent_node, towersEM3, towersIH3, towersOH3, tower_geom, tower_geomOH, hrun⟩ :=
    process_event_present env top s jets background hjets hmand hbg2
  obtain ⟨b1, b2, b3, _⟩ := eventBody_spec env jets cent_node towersEM3 towersIH3 towersOH3
    tower_geom tower_geomOH background { s with m_event := s.m_event + 1 }
  rw [hrun]
  simp only [Outcome.state]
  refine ⟨b1, ⟨_, b2, rfl, ?_⟩, ⟨eventInputs { s with m_event := s.m_event + 1 } towersEM3
    towersIH3 towersOH3 tower_geom tower_geomOH background, rfl, ?_⟩, ?_, ?_⟩
  · simp only [List.length_append, List.length_map]
  · rw [b3]
    congr 1
    congr 1
    funext j
    rw [(compLoop_logs env _ j).2]
    rfl
  · intro jet theta_sj z_sj h1 h2 h3
    unfold bandFills
    dsimp only
    rw [h1, h2, h3]
    simp
  · intro hacc
    refine ⟨_, b2, ?_⟩
    have hlen : (acceptedJets jets).length ≠ 0 := fun h => hacc (List.length_eq_zero.mp h)
    simp only [List.length_append, List.length_map]
    omega

theorem nJet_is_zero_witness :
    (process_event env0 top0 (constructed false false true)).state.m_nJet = 0
    ∧ ∃ r : TreeRow, (process_event env0 top0 (constructed false false true)).state.m_T
          = (constructed false false true).m_T ++ [r]
        ∧ r.nJet ≠ (r.id.length : Int) :=
  ⟨(nJet_is_zero env0 top0 (constructed false false true) jets0 rfl (by decide)
      (by simp [top0])).1,
   (nJet_is_zero env0 top0 (constructed false false true) jets0 rfl (by decide)
      (by simp [top0])).2.2.2.2
      (by norm_num [acceptedJets, jets0, List.filter_cons]; exact List.cons_ne_nil _ _)⟩

end EMJetVal
